import Mathlib

/-!
# dxwrapper, `ddraw/ddraw.cpp`: a shallow embedding

The exported `dd_*` entry points of the DirectDraw wrapper and their helpers,
translated function by function.  Pointers are addresses (`0` is the null
pointer), globals are passed explicitly, and every call that leaves the file
(an original `ddraw.dll` symbol, the Direct3D 9 factory, the enumeration
callback) is an argument of the function that makes it.
-/

set_option autoImplicit false

namespace DdrawWrapper

/-! ## Status codes, configuration, memory -/

/-- Modelled from the spec: the legacy status-code vocabulary of section 6 and
section 7.  The macros `DD_OK`, `DDERR_UNSUPPORTED`, `DDERR_INVALIDPARAMS`,
`DDERR_GENERIC`, `D3DERR_COMMAND_UNPARSED` and `E_POINTER` come from headers
outside `ddraw.cpp`; each names a different code.  `other` stands for any
further code an original system function may hand back. -/
inductive HRESULT where
  | DD_OK
  | DDERR_UNSUPPORTED
  | DDERR_INVALIDPARAMS
  | DDERR_GENERIC
  | D3DERR_COMMAND_UNPARSED
  | E_POINTER
  | other (code : Nat)
  deriving DecidableEq, Repr

open HRESULT

/-- The fields of the global `Config` object that `ddraw.cpp` reads. -/
structure CONFIG where
  Dd7to9 : Bool
  isAppCompatDataSet : Bool
  DXPrimaryEmulation : Nat → Bool
  LockColorkey : Nat
  SetSwapEffectShim : Nat

/-- The exported symbols of `ddraw.dll` that `ddraw.cpp` forwards to. -/
inductive Proc where
  | AcquireDDThreadLock
  | CompleteCreateSysmemSurface
  | D3DParseUnknownCommand
  | DDGetAttachedSurfaceLcl
  | DDInternalLock
  | DDInternalUnlock
  | DSoundHelp
  | DirectDrawCreate
  | DirectDrawCreateClipper
  | DirectDrawCreateEx
  | DirectDrawEnumerateA
  | DirectDrawEnumerateExA
  | DirectDrawEnumerateExW
  | DirectDrawEnumerateW
  | DllCanUnloadNow
  | DllGetClassObject
  | GetDDSurfaceLocal
  | GetOLEThunkData
  | GetSurfaceFromDC
  | RegisterSpecialCase
  | ReleaseDDThreadLock
  | SetAppCompatData
  deriving DecidableEq, Repr

/-- An address; `0` is the null pointer. -/
abbrev Ptr := Nat

/-- The command header `D3DHAL_DP2COMMAND`: a `BYTE` opcode, a `BYTE`
reserved field and a `WORD` count. -/
structure D3DHAL_DP2COMMAND where
  bCommand : Fin 256
  bReserved : Fin 256
  wStateCount : Fin 65536
  deriving DecidableEq, Repr

/-- The part of memory `dd_D3DParseUnknownCommand` touches: the command header
found at an address and the pointer-sized slot found at an address. -/
structure Memory where
  cmdAt : Ptr → D3DHAL_DP2COMMAND
  ptrAt : Ptr → Ptr

/-- The store `*slot = value` of a pointer. -/
def Memory.writePtr (mem : Memory) (slot value : Ptr) : Memory :=
  { mem with ptrAt := fun a => if a = slot then value else mem.ptrAt a }

/-- The declarations of the Direct3D HAL header that
`dd_D3DParseUnknownCommand` uses and `ddraw.cpp` does not contain: five
enumerators of `D3DHAL_DP2OPERATION` and three `sizeof` values.  The two
proof fields are what any header the function compiles against satisfies:
the three `case` labels of the `switch` differ, and the byte counts fit in a
32-bit `size_t` for every 16-bit count. -/
structure D3DHal where
  D3DDP2OP_VIEWPORTINFO : Nat
  D3DDP2OP_WINFO : Nat
  D3DDP2OP_INDEXEDTRIANGLELIST : Nat
  D3DDP2OP_RENDERSTATE : Nat
  D3DDP2OP_LINELIST : Nat
  sizeofCommand : Nat
  sizeofViewportInfo : Nat
  sizeofWInfo : Nat
  case_labels : D3DDP2OP_VIEWPORTINFO ≠ D3DDP2OP_WINFO ∧
    D3DDP2OP_VIEWPORTINFO ≠ 0x0D ∧ D3DDP2OP_WINFO ≠ 0x0D
  sizes_fit : sizeofCommand + 65535 * sizeofViewportInfo < 2 ^ 32 ∧
    sizeofCommand + 65535 * sizeofWInfo < 2 ^ 32 ∧
    sizeofCommand + 65535 * 255 < 2 ^ 32

/-- One such header, following the Windows driver kit header `d3dhal.h`; used
for the concrete runs. -/
def d3dhal : D3DHal where
  D3DDP2OP_VIEWPORTINFO := 28
  D3DDP2OP_WINFO := 29
  D3DDP2OP_INDEXEDTRIANGLELIST := 3
  D3DDP2OP_RENDERSTATE := 8
  D3DDP2OP_LINELIST := 15
  sizeofCommand := 4
  sizeofViewportInfo := 16
  sizeofWInfo := 8
  case_labels := by decide
  sizes_fit := by decide

/-- What a call of `dd_D3DParseUnknownCommand` leaves behind: the status, the
memory, and the original symbols it called through. -/
structure ParseResult where
  hr : HRESULT
  mem : Memory
  calls : List Proc

/-- The number of values of a 32-bit `size_t`. -/
def SIZE_T : Nat := 2 ^ 32

/-- `dd_D3DParseUnknownCommand` (lines 122-180).  The argument
`D3DParseUnknownCommand` is the static pointer that
`DEFINE_STATIC_PROC_ADDRESS` resolves, `none` when it is null.  `advance` is
a `size_t`; the product `count * command->bReserved` is an `int` product of
at most `65535 * 255`.  `base + advance` is pointer arithmetic on addresses. -/
def dd_D3DParseUnknownCommand (H : D3DHal) (Config : CONFIG)
    (D3DParseUnknownCommand : Option (Memory → Ptr → Ptr → HRESULT × Memory))
    (mem : Memory) (lpCmd lpRetCmd : Ptr) : ParseResult :=
  if Config.Dd7to9 then
    if lpCmd = 0 ∨ lpRetCmd = 0 then
      ⟨DDERR_INVALIDPARAMS, mem, []⟩
    else
      let command := mem.cmdAt lpCmd
      let opcode := command.bCommand.val
      let count := command.wStateCount.val
      let base := lpCmd
      if opcode = H.D3DDP2OP_VIEWPORTINFO then
        let advance := (H.sizeofCommand + count * H.sizeofViewportInfo) % SIZE_T
        ⟨DD_OK, mem.writePtr lpRetCmd (base + advance), []⟩
      else if opcode = H.D3DDP2OP_WINFO then
        let advance := (H.sizeofCommand + count * H.sizeofWInfo) % SIZE_T
        ⟨DD_OK, mem.writePtr lpRetCmd (base + advance), []⟩
      else if opcode = 0x0D then
        let advance := (H.sizeofCommand + count * command.bReserved.val) % SIZE_T
        ⟨DD_OK, mem.writePtr lpRetCmd (base + advance), []⟩
      else if opcode ≤ H.D3DDP2OP_INDEXEDTRIANGLELIST ∨
          opcode = H.D3DDP2OP_RENDERSTATE ∨
          opcode ≥ H.D3DDP2OP_LINELIST then
        ⟨DDERR_INVALIDPARAMS, mem, []⟩
      else
        ⟨D3DERR_COMMAND_UNPARSED, mem, []⟩
  else
    match D3DParseUnknownCommand with
    | none => ⟨D3DERR_COMMAND_UNPARSED, mem, []⟩
    | some original =>
      let r := original mem lpCmd lpRetCmd
      ⟨r.1, r.2, [Proc.D3DParseUnknownCommand]⟩

/-! ## Device cache -/

/-- `GUID`: `unsigned long Data1`, `unsigned short Data2, Data3` and
`unsigned char Data4[8]` (the eight bytes packed into one number). -/
structure GUID where
  Data1 : Fin 4294967296
  Data2 : Fin 65536
  Data3 : Fin 65536
  Data4 : Fin 18446744073709551616
  deriving DecidableEq, Repr

/-- The value of `GUID g = {}`. -/
def GUID.zero : GUID := ⟨0, 0, 0, 0⟩

/-- `IsEqualGUID`: a comparison of all sixteen bytes. -/
def IsEqualGUID (a b : GUID) : Bool := decide (a = b)

/-- `g.Data1++` on an `unsigned long`. -/
def GUID.incData1 (g : GUID) : GUID :=
  { g with Data1 := ⟨(g.Data1.val + 1) % 4294967296, Nat.mod_lt _ (by decide)⟩ }

/-- `DDDeviceInfo` (lines 43-54). -/
structure DDDeviceInfo where
  guid : GUID
  name : String
  description : String
  AdapterIndex : Nat
  deriving DecidableEq, Repr

/-- `DDDeviceInfo::operator==` (lines 50-53): only the identifiers are compared. -/
def DDDeviceInfo.eq (a other : DDDeviceInfo) : Bool := IsEqualGUID a.guid other.guid

/-- The constants of the DirectDraw and Direct3D 9 headers that the helpers and
the enumeration handler use and `ddraw.cpp` does not contain.  The proof field
says that the two return values of an enumeration callback differ. -/
structure DDrawSdk where
  DDENUM_ATTACHEDSECONDARYDEVICES : Nat
  DDENUMRET_CANCEL : Int
  DDENUMRET_OK : Int
  D3D_SDK_VERSION : Nat
  D3DADAPTER_DEFAULT : Nat
  LockColorkey : Nat
  IID_IDirectDraw7 : GUID
  IID_IClassFactory : GUID
  ok_ne_cancel : DDENUMRET_OK ≠ DDENUMRET_CANCEL

/-- One assignment of these constants, following `ddraw.h` and `d3d9.h`; used
for the concrete runs. -/
def winsdk : DDrawSdk where
  DDENUM_ATTACHEDSECONDARYDEVICES := 1
  DDENUMRET_CANCEL := 0
  DDENUMRET_OK := 1
  D3D_SDK_VERSION := 32
  D3DADAPTER_DEFAULT := 0
  LockColorkey := 5
  IID_IDirectDraw7 := ⟨0x15e65ec0, 0x3b9c, 0x11d2, 0xb92f00609797ea5b⟩
  IID_IClassFactory := ⟨0x00000001, 0x0000, 0x0000, 0xc000000000000046⟩
  ok_ne_cancel := by decide

/-- `GetAdapterIndex` (lines 805-822) over the global `g_DeviceCache`;
`std::find` returns the first record whose identifier equals `*lpGUID`. -/
def GetAdapterIndex (S : DDrawSdk) (g_DeviceCache : List DDDeviceInfo)
    (lpGUID : Option GUID) : Nat :=
  match lpGUID with
  | none => S.D3DADAPTER_DEFAULT
  | some g =>
    let info : DDDeviceInfo := ⟨g, "", "", 0⟩
    match g_DeviceCache.find? (fun device => device.eq info) with
    | some it => it.AdapterIndex
    | none => S.D3DADAPTER_DEFAULT

/-- `FindGUIDByDeviceName` (lines 824-835): the returned pair is the `bool`
result and the content of `outGuid` afterwards. -/
def FindGUIDByDeviceName (deviceName deviceDesc : String) (outGuid : GUID) :
    List DDDeviceInfo → Bool × GUID
  | [] => (false, outGuid)
  | device :: rest =>
    if device.name = deviceName ∧ device.description = deviceDesc then
      (true, device.guid)
    else
      FindGUIDByDeviceName deviceName deviceDesc outGuid rest

/-- `StoreDeviceCache` (lines 837-850): the walk of `std::find` and the two
branches on its result, `push_back` at the end or the in-place update of the
first record with an equal identifier. -/
def StoreDeviceCache (info : DDDeviceInfo) : List DDDeviceInfo → List DDDeviceInfo
  | [] => [info]
  | it :: rest =>
    if it.eq info then
      { it with description := info.description, name := info.name,
                AdapterIndex := info.AdapterIndex } :: rest
    else
      it :: StoreDeviceCache info rest

/-! ## Enumeration -/

/-- The fields of `D3DADAPTER_IDENTIFIER9` the handler reads. -/
structure D3DADAPTER_IDENTIFIER9 where
  Description : String
  DeviceName : String
  DeviceIdentifier : GUID
  deriving DecidableEq, Repr

/-- The two methods of the `IDirect3D9` object the handler calls.
`GetAdapterIdentifier` is `none` when the call reports `FAILED`. -/
structure IDirect3D9 where
  GetAdapterCount : Nat
  GetAdapterIdentifier : Nat → Option D3DADAPTER_IDENTIFIER9

/-- The enumeration `DirectDrawEnumerateTypes`; `unlisted` is a value that is
none of the four enumerators, for which the `switch` takes its `default`. -/
inductive DirectDrawEnumerateTypes where
  | DDET_ENUMCALLBACKA
  | DDET_ENUMCALLBACKEXA
  | DDET_ENUMCALLBACKEXW
  | DDET_ENUMCALLBACKW
  | unlisted (value : Nat)
  deriving DecidableEq, Repr

open DirectDrawEnumerateTypes

/-- One invocation of the application callback, by callback type:
`LPDDENUMCALLBACKA`, `LPDDENUMCALLBACKEXA`, `LPDDENUMCALLBACKEXW`,
`LPDDENUMCALLBACKW`.  A wide string is its list of code units. -/
inductive EnumCall where
  | A (lpGUID : Option GUID) (lpDesc lpName : String) (lpContext : Ptr)
  | ExA (lpGUID : Option GUID) (lpDesc lpName : String) (lpContext : Ptr) (hMonitor : Ptr)
  | ExW (lpGUID : Option GUID) (lpwDesc lpwName : List Nat) (lpContext : Ptr) (hMonitor : Ptr)
  | W (lpGUID : Option GUID) (lpwDesc lpwName : List Nat) (lpContext : Ptr)
  deriving DecidableEq, Repr

/-- The identifier argument of an invocation. -/
def EnumCall.lpGUID : EnumCall → Option GUID
  | .A g _ _ _ => g
  | .ExA g _ _ _ _ => g
  | .ExW g _ _ _ _ => g
  | .W g _ _ _ => g

/-- The application callback: the `BOOL` it returns for an invocation, given
the invocations it has received before in the same enumeration. -/
abbrev Callback := List EnumCall → EnumCall → Int

/-- What the handler does that is visible outside, tagged with the loop
variable `Adapter`: a `GetAdapterIdentifier` query and whether it succeeded, a
`StoreDeviceCache` call, a callback invocation. -/
inductive EnumEvent where
  | identify (Adapter : Int) (ok : Bool)
  | store (Adapter : Int) (info : DDDeviceInfo)
  | callback (Adapter : Int) (call : EnumCall)
  deriving DecidableEq, Repr

/-- The callback invocations among the events, in order. -/
def callsOf : List EnumEvent → List EnumCall
  | [] => []
  | .callback _ c :: rest => c :: callsOf rest
  | _ :: rest => callsOf rest

/-- The functions outside `ddraw.cpp` the handler calls: the resolved
`Direct3DCreate9` (`none` when the pointer is null; its result is `none` for a
null object), `Utils::GetMonitorFromDeviceName`, and `mbstowcs_s` as the wide
buffer content it leaves for a buffer size, a source string and a count. -/
structure EnumEnv where
  Direct3DCreate9 : Option (Nat → Option IDirect3D9)
  GetMonitorFromDeviceName : String → Ptr
  mbstowcs_s : Nat → String → Nat → List Nat

/-- The variables of `DirectDrawEnumerateHandler` that live across loop
iterations, the global cache, and the events so far. -/
structure EnumState where
  g_DeviceCache : List DDDeviceInfo
  myGUID : GUID
  lastGUID : GUID
  hr : HRESULT
  events : List EnumEvent

/-- The conversion `(int)` of a `UINT`. -/
def UINT_to_int (v : Nat) : Int :=
  if v % 4294967296 < 2147483648 then (v % 4294967296 : Nat) else (v % 4294967296 : Nat) - 4294967296

/-- The conversion of an `int` to `UINT`. -/
def int_to_UINT (i : Int) : Nat := (i % 4294967296).toNat

/-- The callback invocation of the `switch (DDETType)` (lines 945-970) for the
prepared arguments; `none` is the `default` branch. -/
def enumCallOf (env : EnumEnv) (DDETType : DirectDrawEnumerateTypes)
    (lpGUID : Option GUID) (lpDesc lpName : String) (lpContext hMonitor : Ptr) :
    Option EnumCall :=
  let lpwName := env.mbstowcs_s 32 lpName 32
  let lpwDesc := env.mbstowcs_s 128 lpDesc 128
  match DDETType with
  | DDET_ENUMCALLBACKA => some (.A lpGUID lpDesc lpName lpContext)
  | DDET_ENUMCALLBACKEXA => some (.ExA lpGUID lpDesc lpName lpContext hMonitor)
  | DDET_ENUMCALLBACKEXW => some (.ExW lpGUID lpwDesc lpwName lpContext hMonitor)
  | DDET_ENUMCALLBACKW => some (.W lpGUID lpwDesc lpwName lpContext)
  | unlisted _ => none

/-- Lines 945-975 of the loop body: the wide conversion, the callback `switch`
and the test for `DDENUMRET_CANCEL`.  The `Bool` says whether the loop breaks. -/
def enumInvoke (S : DDrawSdk) (env : EnumEnv) (lpCallback : Callback) (lpContext : Ptr)
    (DDETType : DirectDrawEnumerateTypes) (Adapter : Int) (st : EnumState)
    (lpGUID : Option GUID) (lpDesc lpName : String) (hMonitor : Ptr) : EnumState × Bool :=
  match enumCallOf env DDETType lpGUID lpDesc lpName lpContext hMonitor with
  | none => ({ st with hr := DDERR_UNSUPPORTED }, true)
  | some call =>
    let hr_Callback := lpCallback (callsOf st.events) call
    ({ st with events := st.events ++ [.callback Adapter call] },
      decide (hr_Callback = S.DDENUMRET_CANCEL))

/-- One iteration of the loop of `DirectDrawEnumerateHandler` (lines 891-975).
The `Bool` says whether the loop breaks. -/
def enumBody (S : DDrawSdk) (env : EnumEnv) (d3d9Object : IDirect3D9)
    (lpCallback : Callback) (lpContext : Ptr) (DDETType : DirectDrawEnumerateTypes)
    (Adapter : Int) (st : EnumState) : EnumState × Bool :=
  if Adapter = -1 then
    enumInvoke S env lpCallback lpContext DDETType Adapter st
      none "Primary Display Driver" "display" 0
  else
    match d3d9Object.GetAdapterIdentifier (int_to_UINT Adapter) with
    | none =>
      ({ st with hr := DDERR_UNSUPPORTED,
                 events := st.events ++ [.identify Adapter false] }, true)
    | some Identifier =>
      let found := FindGUIDByDeviceName Identifier.DeviceName Identifier.Description
        st.myGUID st.g_DeviceCache
      let myGUID :=
        if !found.1 then
          let ReusingGUID := IsEqualGUID st.lastGUID Identifier.DeviceIdentifier
          if ReusingGUID then Identifier.DeviceIdentifier.incData1
          else Identifier.DeviceIdentifier
        else found.2
      let info : DDDeviceInfo :=
        ⟨myGUID, Identifier.DeviceName, Identifier.Description, int_to_UINT Adapter⟩
      let st1 : EnumState :=
        { st with g_DeviceCache := StoreDeviceCache info st.g_DeviceCache,
                  myGUID := myGUID,
                  lastGUID := Identifier.DeviceIdentifier,
                  events := st.events ++ [.identify Adapter true, .store Adapter info] }
      let hMonitor :=
        if DDETType = DDET_ENUMCALLBACKEXA ∨ DDETType = DDET_ENUMCALLBACKEXW then
          env.GetMonitorFromDeviceName Identifier.DeviceName
        else 0
      enumInvoke S env lpCallback lpContext DDETType Adapter st1
        (some myGUID) Identifier.Description Identifier.DeviceName hMonitor

/-- The loop `for (int Adapter = -1; Adapter < AdapterCount; Adapter++)` of
lines 889-976, by the number of iterations still to run (`AdapterCount -
Adapter`), ended early by a `break`. -/
def enumLoop (S : DDrawSdk) (env : EnumEnv) (d3d9Object : IDirect3D9)
    (lpCallback : Callback) (lpContext : Ptr) (DDETType : DirectDrawEnumerateTypes) :
    Nat → Int → EnumState → EnumState
  | 0, _, st => st
  | n + 1, Adapter, st =>
    match enumBody S env d3d9Object lpCallback lpContext DDETType Adapter st with
    | (st1, true) => st1
    | (st1, false) =>
      enumLoop S env d3d9Object lpCallback lpContext DDETType n (Adapter + 1) st1

/-- The value of the local `AdapterCount` (line 878). -/
def AdapterCount (S : DDrawSdk) (dwFlags : Nat) (d3d9Object : IDirect3D9) : Int :=
  if dwFlags &&& S.DDENUM_ATTACHEDSECONDARYDEVICES ≠ S.DDENUM_ATTACHEDSECONDARYDEVICES
  then 0 else UINT_to_int d3d9Object.GetAdapterCount

/-- What a call of the handler leaves behind: the status, the global cache,
the events in order. -/
structure EnumResult where
  hr : HRESULT
  g_DeviceCache : List DDDeviceInfo
  events : List EnumEvent

/-- `DirectDrawEnumerateHandler` (lines 852-979).  `lpCallback` is `none` for a
null pointer. -/
def DirectDrawEnumerateHandler (S : DDrawSdk) (env : EnumEnv)
    (g_DeviceCache : List DDDeviceInfo) (lpCallback : Option Callback) (lpContext : Ptr)
    (dwFlags : Nat) (DDETType : DirectDrawEnumerateTypes) : EnumResult :=
  match lpCallback with
  | none => ⟨DDERR_INVALIDPARAMS, g_DeviceCache, []⟩
  | some callback =>
    match env.Direct3DCreate9 with
    | none => ⟨DDERR_UNSUPPORTED, g_DeviceCache, []⟩
    | some create =>
      match create S.D3D_SDK_VERSION with
      | none => ⟨DDERR_UNSUPPORTED, g_DeviceCache, []⟩
      | some d3d9Object =>
        let st := enumLoop S env d3d9Object callback lpContext DDETType
          (AdapterCount S dwFlags d3d9Object + 1).toNat (-1)
          ⟨g_DeviceCache, GUID.zero, GUID.zero, DD_OK, []⟩
        ⟨st.hr, st.g_DeviceCache, st.events⟩

/-! ## Synchronization state -/

/-- The two critical sections of the anonymous namespace (lines 33-34). -/
inductive CriticalSection where
  | ddcs
  | pecs
  deriving DecidableEq, Repr

open CriticalSection

/-- The system calls on the critical sections, and the run of the hook block
of `InitDDraw` (lines 716-754), whose body lies outside the synchronization
state. -/
inductive SyncEvent where
  | InitializeCriticalSectionAndSpinCount (cs : CriticalSection) (dwSpinCount : Nat)
  | InitializeCriticalSection (cs : CriticalSection)
  | EnterCriticalSection (cs : CriticalSection)
  | LeaveCriticalSection (cs : CriticalSection)
  | DeleteCriticalSection (cs : CriticalSection)
  | InstallHooks
  deriving DecidableEq, Repr

/-- The globals `IsInitialized` (line 32) and `RunOnce` (line 715), and the
system calls made on the critical sections so far. -/
structure DDrawState where
  IsInitialized : Bool
  RunOnce : Bool
  log : List SyncEvent
  deriving DecidableEq, Repr

/-- The state at load time: `IsInitialized = false`, `RunOnce = true`. -/
def DDrawState.initial : DDrawState := ⟨false, true, []⟩

/-- `InitDDraw` (lines 699-755).  `spinCountOk cs` is the result of
`InitializeCriticalSectionAndSpinCount` on `cs`. -/
def InitDDraw (spinCountOk : CriticalSection → Bool) (s : DDrawState) : DDrawState :=
  let s1 : DDrawState :=
    if !s.IsInitialized then
      let l1 := s.log ++ [.InitializeCriticalSectionAndSpinCount ddcs 4000] ++
        (if !spinCountOk ddcs then [.InitializeCriticalSection ddcs] else [])
      let l2 := l1 ++ [.InitializeCriticalSectionAndSpinCount pecs 4000] ++
        (if !spinCountOk pecs then [.InitializeCriticalSection pecs] else [])
      { s with IsInitialized := true, log := l2 }
    else s
  if s1.RunOnce then
    { s1 with RunOnce := false, log := s1.log ++ [.InstallHooks] }
  else s1

/-- `ExitDDraw` (lines 757-770); the two scoped locks are released in the
reverse order of their construction. -/
def ExitDDraw (s : DDrawState) : DDrawState :=
  if s.IsInitialized then
    { s with IsInitialized := false,
             log := s.log ++ [.EnterCriticalSection ddcs, .EnterCriticalSection pecs,
               .LeaveCriticalSection pecs, .LeaveCriticalSection ddcs,
               .DeleteCriticalSection ddcs, .DeleteCriticalSection pecs] }
  else s

/-- What a lock entry point leaves behind. -/
structure LockResult where
  hr : HRESULT
  state : DDrawState
  calls : List Proc

/-- `dd_AcquireDDThreadLock` (lines 78-100). -/
def dd_AcquireDDThreadLock (Config : CONFIG) (AcquireDDThreadLock : Option (Unit → HRESULT))
    (s : DDrawState) : LockResult :=
  if Config.Dd7to9 then
    if s.IsInitialized then
      ⟨DD_OK, { s with log := s.log ++ [.EnterCriticalSection ddcs] }, []⟩
    else ⟨DDERR_UNSUPPORTED, s, []⟩
  else
    match AcquireDDThreadLock with
    | none => ⟨DDERR_UNSUPPORTED, s, []⟩
    | some original => ⟨original (), s, [Proc.AcquireDDThreadLock]⟩

/-- `dd_ReleaseDDThreadLock` (lines 651-673). -/
def dd_ReleaseDDThreadLock (Config : CONFIG) (ReleaseDDThreadLock : Option (Unit → HRESULT))
    (s : DDrawState) : LockResult :=
  if Config.Dd7to9 then
    if s.IsInitialized then
      ⟨DD_OK, { s with log := s.log ++ [.LeaveCriticalSection ddcs] }, []⟩
    else ⟨DDERR_UNSUPPORTED, s, []⟩
  else
    match ReleaseDDThreadLock with
    | none => ⟨DDERR_UNSUPPORTED, s, []⟩
    | some original => ⟨original (), s, [Proc.ReleaseDDThreadLock]⟩

/-! ## The remaining exported entry points -/

/-- The status of an entry point and the original symbols it called through. -/
structure CallResult where
  hr : HRESULT
  calls : List Proc

/-- `dd_DDGetAttachedSurfaceLcl` (lines 182-200). -/
def dd_DDGetAttachedSurfaceLcl (Config : CONFIG)
    (DDGetAttachedSurfaceLcl : Option (Nat → Nat → Nat → HRESULT)) (arg1 arg2 arg3 : Nat) :
    CallResult :=
  if Config.Dd7to9 then ⟨DDERR_UNSUPPORTED, []⟩
  else
    match DDGetAttachedSurfaceLcl with
    | none => ⟨DDERR_UNSUPPORTED, []⟩
    | some original => ⟨original arg1 arg2 arg3, [Proc.DDGetAttachedSurfaceLcl]⟩

/-- `dd_DSoundHelp` (lines 242-260). -/
def dd_DSoundHelp (Config : CONFIG) (DSoundHelp : Option (Nat → Nat → Nat → HRESULT))
    (arg1 arg2 arg3 : Nat) : CallResult :=
  if Config.Dd7to9 then ⟨DDERR_UNSUPPORTED, []⟩
  else
    match DSoundHelp with
    | none => ⟨DDERR_UNSUPPORTED, []⟩
    | some original => ⟨original arg1 arg2 arg3, [Proc.DSoundHelp]⟩

/-- `dd_DllCanUnloadNow` (lines 490-508). -/
def dd_DllCanUnloadNow (Config : CONFIG) (DllCanUnloadNow : Option (Unit → HRESULT)) :
    CallResult :=
  if Config.Dd7to9 then ⟨DDERR_UNSUPPORTED, []⟩
  else
    match DllCanUnloadNow with
    | none => ⟨DDERR_UNSUPPORTED, []⟩
    | some original => ⟨original (), [Proc.DllCanUnloadNow]⟩

/-- `dd_GetDDSurfaceLocal` (lines 561-579). -/
def dd_GetDDSurfaceLocal (Config : CONFIG)
    (GetDDSurfaceLocal : Option (Nat → Nat → Nat → HRESULT)) (arg1 arg2 arg3 : Nat) :
    CallResult :=
  if Config.Dd7to9 then ⟨DDERR_UNSUPPORTED, []⟩
  else
    match GetDDSurfaceLocal with
    | none => ⟨DDERR_UNSUPPORTED, []⟩
    | some original => ⟨original arg1 arg2 arg3, [Proc.GetDDSurfaceLocal]⟩

/-- `dd_GetSurfaceFromDC` (lines 611-629). -/
def dd_GetSurfaceFromDC (Config : CONFIG)
    (GetSurfaceFromDC : Option (Ptr → Ptr → Nat → HRESULT)) (hdc lpDDS : Ptr) (arg : Nat) :
    CallResult :=
  if Config.Dd7to9 then ⟨DDERR_UNSUPPORTED, []⟩
  else
    match GetSurfaceFromDC with
    | none => ⟨DDERR_UNSUPPORTED, []⟩
    | some original => ⟨original hdc lpDDS arg, [Proc.GetSurfaceFromDC]⟩

/-- `dd_RegisterSpecialCase` (lines 631-649). -/
def dd_RegisterSpecialCase (Config : CONFIG)
    (RegisterSpecialCase : Option (Nat → Nat → Nat → Nat → HRESULT))
    (arg1 arg2 arg3 arg4 : Nat) : CallResult :=
  if Config.Dd7to9 then ⟨DDERR_UNSUPPORTED, []⟩
  else
    match RegisterSpecialCase with
    | none => ⟨DDERR_UNSUPPORTED, []⟩
    | some original => ⟨original arg1 arg2 arg3 arg4, [Proc.RegisterSpecialCase]⟩

/-- `dd_SetAppCompatData` (lines 675-693); `dwType` is the parameter `Type`. -/
def dd_SetAppCompatData (Config : CONFIG) (SetAppCompatData : Option (Nat → Nat → HRESULT))
    (dwType Value : Nat) : CallResult :=
  if Config.Dd7to9 then ⟨DD_OK, []⟩
  else
    match SetAppCompatData with
    | none => ⟨DDERR_GENERIC, []⟩
    | some original => ⟨original dwType Value, [Proc.SetAppCompatData]⟩

/-- `SetAllAppCompatData` (lines 773-803): the `SetAppCompatData(x, value)` calls
it makes, in order.  `S.LockColorkey` is `AppCompatDataType.LockColorkey`. -/
def SetAllAppCompatData (S : DDrawSdk) (Config : CONFIG)
    (SetAppCompatData : Option (Nat → Nat → HRESULT)) : List (Nat × Nat) :=
  match SetAppCompatData with
  | none => []
  | some _ =>
    (List.range' 1 12).filterMap fun x =>
      if Config.DXPrimaryEmulation x then
        if x = S.LockColorkey then some (x, Config.LockColorkey) else some (x, 0)
      else none

/-- The macro `SUCCEEDED`: the sign bit of the 32-bit code is clear. -/
def SUCCEEDED : HRESULT → Bool
  | DD_OK => true
  | other code => decide (code % 4294967296 < 2147483648)
  | _ => false

/-- What an entry point stores through its output pointer: nothing, a wrapper
built by a constructor outside `ddraw.cpp`, or a plain pointer value. -/
inductive Stored where
  | nothing
  | newDirectDrawX (DirectXVersion AdapterIndex : Nat) (IsEx : Bool)
  | wrapDirectDrawX (original : Ptr) (DirectXVersion : Nat)
  | clipper (original : Ptr) (dwFlags : Nat)
  | classFactory (original : Ptr) (rclsid : GUID)
  | value (p : Ptr)
  deriving DecidableEq, Repr

/-- What a creating entry point leaves behind: the status, what it stored
through the output pointer, the argument of a call to
`Direct3D9SetSwapEffectUpgradeShim` if one was made, the original symbols it
called through. -/
structure CreateResult where
  hr : HRESULT
  out : Stored
  shim : Option Nat
  calls : List Proc

/-- The calls through `SetAppCompatData` made by the block
`if (Config.isAppCompatDataSet) SetAllAppCompatData();`. -/
def compatCalls (S : DDrawSdk) (Config : CONFIG)
    (SetAppCompatData : Option (Nat → Nat → HRESULT)) : List Proc :=
  if Config.isAppCompatDataSet then
    (SetAllAppCompatData S Config SetAppCompatData).map fun _ => Proc.SetAppCompatData
  else []

/-- `dd_DirectDrawCreate` (lines 262-308).  The original returns its status
and the pointer it leaves in `*lplpDD`. -/
def dd_DirectDrawCreate (S : DDrawSdk) (Config : CONFIG)
    (DirectDrawCreate : Option (Option GUID → Ptr → Ptr → HRESULT × Ptr))
    (SetAppCompatData : Option (Nat → Nat → HRESULT))
    (g_DeviceCache : List DDDeviceInfo)
    (lpGUID : Option GUID) (lplpDD pUnkOuter : Ptr) : CreateResult :=
  if Config.Dd7to9 then
    let shim := if Config.SetSwapEffectShim < 2 then some Config.SetSwapEffectShim else none
    ⟨DD_OK, .newDirectDrawX 1 (GetAdapterIndex S g_DeviceCache lpGUID) false, shim, []⟩
  else
    match DirectDrawCreate with
    | none => ⟨DDERR_UNSUPPORTED, .nothing, none, []⟩
    | some original =>
      let compat := compatCalls S Config SetAppCompatData
      let r := original lpGUID lplpDD pUnkOuter
      let hr := r.1
      if SUCCEEDED hr ∧ lplpDD ≠ 0 ∧ r.2 ≠ 0 then
        ⟨hr, .wrapDirectDrawX r.2 1, none, compat ++ [Proc.DirectDrawCreate]⟩
      else
        ⟨hr, .value r.2, none, compat ++ [Proc.DirectDrawCreate]⟩

/-- `dd_DirectDrawCreateClipper` (lines 310-345). -/
def dd_DirectDrawCreateClipper (Config : CONFIG)
    (DirectDrawCreateClipper : Option (Nat → Ptr → Ptr → HRESULT × Ptr))
    (dwFlags : Nat) (lplpDDClipper pUnkOuter : Ptr) : CreateResult :=
  if Config.Dd7to9 then
    if lplpDDClipper = 0 ∨ pUnkOuter ≠ 0 then
      ⟨DDERR_INVALIDPARAMS, .nothing, none, []⟩
    else
      ⟨DD_OK, .clipper 0 dwFlags, none, []⟩
  else
    match DirectDrawCreateClipper with
    | none => ⟨DDERR_UNSUPPORTED, .nothing, none, []⟩
    | some original =>
      let r := original dwFlags lplpDDClipper pUnkOuter
      let hr := r.1
      if SUCCEEDED hr ∧ lplpDDClipper ≠ 0 then
        ⟨hr, .clipper r.2 dwFlags, none, [Proc.DirectDrawCreateClipper]⟩
      else
        ⟨hr, .value r.2, none, [Proc.DirectDrawCreateClipper]⟩

/-- `dd_DirectDrawCreateEx` (lines 347-406).  `GetGUIDVersion` is the helper of
that name outside `ddraw.cpp`. -/
def dd_DirectDrawCreateEx (S : DDrawSdk) (Config : CONFIG) (GetGUIDVersion : GUID → Nat)
    (DirectDrawCreateEx : Option (Option GUID → Ptr → GUID → Ptr → HRESULT × Ptr))
    (SetAppCompatData : Option (Nat → Nat → HRESULT))
    (g_DeviceCache : List DDDeviceInfo)
    (lpGUID : Option GUID) (lplpDD : Ptr) (riid : GUID) (pUnkOuter : Ptr) : CreateResult :=
  if Config.Dd7to9 then
    if lplpDD = 0 ∨ pUnkOuter ≠ 0 then
      ⟨DDERR_INVALIDPARAMS, .nothing, none, []⟩
    else if riid ≠ S.IID_IDirectDraw7 then
      ⟨DDERR_INVALIDPARAMS, .nothing, none, []⟩
    else
      let shim := if Config.SetSwapEffectShim < 2 then some Config.SetSwapEffectShim else none
      ⟨DD_OK, .newDirectDrawX 7 (GetAdapterIndex S g_DeviceCache lpGUID) true, shim, []⟩
  else
    match DirectDrawCreateEx with
    | none => ⟨DDERR_UNSUPPORTED, .nothing, none, []⟩
    | some original =>
      let compat := compatCalls S Config SetAppCompatData
      let r := original lpGUID lplpDD S.IID_IDirectDraw7 pUnkOuter
      let hr := r.1
      if SUCCEEDED hr then
        let DxVersion := GetGUIDVersion riid
        ⟨hr, .wrapDirectDrawX r.2 DxVersion, none, compat ++ [Proc.DirectDrawCreateEx]⟩
      else
        ⟨hr, .value r.2, none, compat ++ [Proc.DirectDrawCreateEx]⟩

/-- `dd_DllGetClassObject` (lines 510-559).  `ProxyQueryInterface` and
`genericQueryInterface` are the dispatchers of those names outside
`ddraw.cpp`: the first returns its status and the pointer it leaves in
`*ppv`, the second the pointer it leaves in `*ppv`. -/
def dd_DllGetClassObject (S : DDrawSdk) (Config : CONFIG)
    (ProxyQueryInterface : GUID → Ptr → GUID → HRESULT × Ptr)
    (genericQueryInterface : GUID → Ptr → Ptr)
    (DllGetClassObject : Option (GUID → GUID → Ptr → HRESULT × Ptr))
    (rclsid riid : GUID) (ppv : Ptr) : CreateResult :=
  if Config.Dd7to9 then
    if ppv = 0 then
      ⟨E_POINTER, .nothing, none, []⟩
    else
      let r := ProxyQueryInterface riid ppv rclsid
      ⟨r.1, .value r.2, none, []⟩
  else
    match DllGetClassObject with
    | none => ⟨DDERR_UNSUPPORTED, .nothing, none, []⟩
    | some original =>
      let r := original rclsid riid ppv
      let hr := r.1
      if SUCCEEDED hr ∧ ppv ≠ 0 then
        if riid = S.IID_IClassFactory then
          ⟨DD_OK, .classFactory r.2 rclsid, none, [Proc.DllGetClassObject]⟩
        else
          ⟨hr, .value (genericQueryInterface riid r.2), none, [Proc.DllGetClassObject]⟩
      else
        ⟨hr, .value r.2, none, [Proc.DllGetClassObject]⟩

/-- What an enumerating entry point leaves behind: the result of the handler
and the original symbols called through. -/
structure EnumExportResult where
  hr : HRESULT
  g_DeviceCache : List DDDeviceInfo
  events : List EnumEvent
  calls : List Proc

/-- The result of the handler as the result of an entry point. -/
def EnumResult.toExport (r : EnumResult) : EnumExportResult :=
  ⟨r.hr, r.g_DeviceCache, r.events, []⟩

/-- `dd_DirectDrawEnumerateA` (lines 408-425). -/
def dd_DirectDrawEnumerateA (S : DDrawSdk) (env : EnumEnv) (Config : CONFIG)
    (DirectDrawEnumerateA : Option (Option Callback → Ptr → HRESULT))
    (g_DeviceCache : List DDDeviceInfo) (lpCallback : Option Callback) (lpContext : Ptr) :
    EnumExportResult :=
  if Config.Dd7to9 then
    (DirectDrawEnumerateHandler S env g_DeviceCache lpCallback lpContext 0
      DDET_ENUMCALLBACKA).toExport
  else
    match DirectDrawEnumerateA with
    | none => ⟨DDERR_UNSUPPORTED, g_DeviceCache, [], []⟩
    | some original =>
      ⟨original lpCallback lpContext, g_DeviceCache, [], [Proc.DirectDrawEnumerateA]⟩

/-- `dd_DirectDrawEnumerateExA` (lines 427-444). -/
def dd_DirectDrawEnumerateExA (S : DDrawSdk) (env : EnumEnv) (Config : CONFIG)
    (DirectDrawEnumerateExA : Option (Option Callback → Ptr → Nat → HRESULT))
    (g_DeviceCache : List DDDeviceInfo) (lpCallback : Option Callback) (lpContext : Ptr)
    (dwFlags : Nat) : EnumExportResult :=
  if Config.Dd7to9 then
    (DirectDrawEnumerateHandler S env g_DeviceCache lpCallback lpContext dwFlags
      DDET_ENUMCALLBACKEXA).toExport
  else
    match DirectDrawEnumerateExA with
    | none => ⟨DDERR_UNSUPPORTED, g_DeviceCache, [], []⟩
    | some original =>
      ⟨original lpCallback lpContext dwFlags, g_DeviceCache, [],
        [Proc.DirectDrawEnumerateExA]⟩

/-- `dd_DirectDrawEnumerateExW` (lines 446-466). -/
def dd_DirectDrawEnumerateExW (Config : CONFIG)
    (DirectDrawEnumerateExW : Option (Option Callback → Ptr → Nat → HRESULT))
    (g_DeviceCache : List DDDeviceInfo) (lpCallback : Option Callback) (lpContext : Ptr)
    (dwFlags : Nat) : EnumExportResult :=
  if Config.Dd7to9 then
    ⟨DDERR_UNSUPPORTED, g_DeviceCache, [], []⟩
  else
    match DirectDrawEnumerateExW with
    | none => ⟨DDERR_UNSUPPORTED, g_DeviceCache, [], []⟩
    | some original =>
      ⟨original lpCallback lpContext dwFlags, g_DeviceCache, [],
        [Proc.DirectDrawEnumerateExW]⟩

/-- `dd_DirectDrawEnumerateW` (lines 468-488). -/
def dd_DirectDrawEnumerateW (Config : CONFIG)
    (DirectDrawEnumerateW : Option (Option Callback → Ptr → HRESULT))
    (g_DeviceCache : List DDDeviceInfo) (lpCallback : Option Callback) (lpContext : Ptr) :
    EnumExportResult :=
  if Config.Dd7to9 then
    ⟨DDERR_UNSUPPORTED, g_DeviceCache, [], []⟩
  else
    match DirectDrawEnumerateW with
    | none => ⟨DDERR_UNSUPPORTED, g_DeviceCache, [], []⟩
    | some original =>
      ⟨original lpCallback lpContext, g_DeviceCache, [], [Proc.DirectDrawEnumerateW]⟩

/-! ## Reading the event list -/

/-- The value of the loop variable `Adapter` at an event. -/
def EnumEvent.adapter : EnumEvent → Int
  | .identify a _ => a
  | .store a _ => a
  | .callback a _ => a

/-- The values of `Adapter` at the callback invocations, in order. -/
def callbackAdapters : List EnumEvent → List Int
  | [] => []
  | .callback a _ :: rest => a :: callbackAdapters rest
  | _ :: rest => callbackAdapters rest

/-- The values `a, a + 1, ...` of `Adapter` in `count` successive iterations. -/
def adaptersFrom (a : Int) : Nat → List Int
  | 0 => []
  | count + 1 => a :: adaptersFrom (a + 1) count

/-- The records passed to `StoreDeviceCache`, in order. -/
def storesOf : List EnumEvent → List DDDeviceInfo
  | [] => []
  | .store _ info :: rest => info :: storesOf rest
  | _ :: rest => storesOf rest

/-- The cache after the given `StoreDeviceCache` calls, in order. -/
def replayStores : List DDDeviceInfo → List DDDeviceInfo → List DDDeviceInfo
  | [], cache => cache
  | info :: rest, cache => replayStores rest (StoreDeviceCache info cache)

/-! ## Sequences of enumeration passes -/

/-- The arguments and environment of one call of `DirectDrawEnumerateHandler`. -/
structure EnumPass where
  env : EnumEnv
  lpCallback : Option Callback
  lpContext : Ptr
  dwFlags : Nat
  DDETType : DirectDrawEnumerateTypes

/-- The global cache after the given calls of the handler, in order. -/
def runPasses (S : DDrawSdk) : List EnumPass → List DDDeviceInfo → List DDDeviceInfo
  | [], g_DeviceCache => g_DeviceCache
  | pass :: rest, g_DeviceCache =>
    runPasses S rest
      (DirectDrawEnumerateHandler S pass.env g_DeviceCache pass.lpCallback pass.lpContext
        pass.dwFlags pass.DDETType).g_DeviceCache

/-! ## Concrete inputs -/

/-- A memory holding the same command header at every address. -/
def memWith (command : D3DHAL_DP2COMMAND) : Memory :=
  ⟨fun _ => command, fun _ => 0⟩

/-- A configuration in translation mode. -/
def translating : CONFIG := ⟨true, false, fun _ => false, 0, 0⟩

/-- A configuration in passthrough mode. -/
def forwarding : CONFIG := ⟨false, false, fun _ => false, 0, 0⟩

/-- A native unique identifier shared by the adapters of one graphics card. -/
def cardGUID : GUID := ⟨7, 1, 2, 3⟩

/-- A factory reporting the given adapter identities, in index order. -/
def factoryOf (adapters : List D3DADAPTER_IDENTIFIER9) : IDirect3D9 :=
  ⟨adapters.length, fun k => adapters.get? k⟩

/-- An environment whose `Direct3DCreate9` resolves and returns the given factory. -/
def envOf (d3d9Object : IDirect3D9) : EnumEnv :=
  ⟨some fun _ => some d3d9Object, fun _ => 0, fun _ _ _ => []⟩

/-- A callback that always returns `DDENUMRET_OK`. -/
def alwaysOk : Callback := fun _ _ => 1

/-- A callback that returns `DDENUMRET_CANCEL` on its second invocation. -/
def cancelSecond : Callback := fun previous _ => if previous.length = 1 then 0 else 1

/-- Three monitors on one card: equal native identifiers, different device names. -/
def threeMonitors : List D3DADAPTER_IDENTIFIER9 :=
  [⟨"card", "DISPLAY1", cardGUID⟩, ⟨"card", "DISPLAY2", cardGUID⟩, ⟨"card", "DISPLAY3", cardGUID⟩]

/-- One monitor of the card. -/
def firstPass : List D3DADAPTER_IDENTIFIER9 := [⟨"card", "DISPLAY1", cardGUID⟩]

/-- The same monitor after a second one has been plugged in ahead of it. -/
def secondPass : List D3DADAPTER_IDENTIFIER9 :=
  [⟨"card", "DISPLAY2", cardGUID⟩, ⟨"card", "DISPLAY1", cardGUID⟩]

/-- A factory whose identity query fails at adapter index `1`. -/
def failingAtOne : IDirect3D9 :=
  ⟨3, fun k => if k = 1 then none else some ⟨"card", "DISPLAY1", cardGUID⟩⟩

/-! ## Theorems -/

/-! ### Command stream parser -/

/-- A byte count of a header and up to `65535` records that fits in `size_t`
is not reduced by the `size_t` arithmetic. -/
theorem advance_fits (hdr size bound count : Nat) (hs : size ≤ bound)
    (h : hdr + 65535 * bound < 2 ^ 32) (hc : count < 65536) :
    (hdr + count * size) % SIZE_T = hdr + count * size := by
  have h1 : count * size ≤ 65535 * bound := Nat.mul_le_mul (by omega) hs
  exact Nat.mod_eq_of_lt (by unfold SIZE_T; omega)

/-- C1: in translation mode, for a non-null command buffer and a non-null
output pointer, a header whose opcode is the viewport-info opcode, the
window-info opcode or `0x0D` makes `dd_D3DParseUnknownCommand` return `DD_OK`,
store `lpCmd + header size + count * r` through the output pointer and change
nothing else, where `r` is the viewport-record size, the window-record size or
the reserved byte of the header, for every count and reserved byte. -/
theorem dd_D3DParseUnknownCommand_sized (H : D3DHal) (Config : CONFIG)
    (original : Option (Memory → Ptr → Ptr → HRESULT × Memory))
    (mem : Memory) (lpCmd lpRetCmd : Ptr)
    (hmode : Config.Dd7to9 = true) (hcmd : lpCmd ≠ 0) (hret : lpRetCmd ≠ 0) :
    ((mem.cmdAt lpCmd).bCommand.val = H.D3DDP2OP_VIEWPORTINFO →
      (dd_D3DParseUnknownCommand H Config original mem lpCmd lpRetCmd).hr = DD_OK ∧
      (dd_D3DParseUnknownCommand H Config original mem lpCmd lpRetCmd).mem =
        mem.writePtr lpRetCmd
          (lpCmd + H.sizeofCommand + (mem.cmdAt lpCmd).wStateCount.val * H.sizeofViewportInfo)) ∧
    ((mem.cmdAt lpCmd).bCommand.val = H.D3DDP2OP_WINFO →
      (dd_D3DParseUnknownCommand H Config original mem lpCmd lpRetCmd).hr = DD_OK ∧
      (dd_D3DParseUnknownCommand H Config original mem lpCmd lpRetCmd).mem =
        mem.writePtr lpRetCmd
          (lpCmd + H.sizeofCommand + (mem.cmdAt lpCmd).wStateCount.val * H.sizeofWInfo)) ∧
    ((mem.cmdAt lpCmd).bCommand.val = 0x0D →
      (dd_D3DParseUnknownCommand H Config original mem lpCmd lpRetCmd).hr = DD_OK ∧
      (dd_D3DParseUnknownCommand H Config original mem lpCmd lpRetCmd).mem =
        mem.writePtr lpRetCmd
          (lpCmd + H.sizeofCommand +
            (mem.cmdAt lpCmd).wStateCount.val * (mem.cmdAt lpCmd).bReserved.val)) := by
  have hc := (mem.cmdAt lpCmd).wStateCount.isLt
  have hb := (mem.cmdAt lpCmd).bReserved.isLt
  obtain ⟨l1, l2, l3⟩ := H.case_labels
  obtain ⟨f1, f2, f3⟩ := H.sizes_fit
  refine ⟨fun h => ?_, fun h => ?_, fun h => ?_⟩
  · have hv : H.D3DDP2OP_VIEWPORTINFO = (mem.cmdAt lpCmd).bCommand.val := h.symm
    simp [dd_D3DParseUnknownCommand, hmode, hcmd, hret, hv,
      advance_fits _ _ _ _ (le_refl _) f1 hc, Nat.add_assoc]
  · have hw : H.D3DDP2OP_WINFO = (mem.cmdAt lpCmd).bCommand.val := h.symm
    have hne : ¬ (mem.cmdAt lpCmd).bCommand.val = H.D3DDP2OP_VIEWPORTINFO := by
      rw [h]; exact fun e => l1 e.symm
    simp [dd_D3DParseUnknownCommand, hmode, hcmd, hret, hne, hw,
      advance_fits _ _ _ _ (le_refl _) f2 hc, Nat.add_assoc]
  · have hfit := advance_fits H.sizeofCommand (mem.cmdAt lpCmd).bReserved.val 255
      (mem.cmdAt lpCmd).wStateCount.val (by omega) f3 hc
    have l2s : ¬ (13 = H.D3DDP2OP_VIEWPORTINFO) := fun e => l2 e.symm
    have l3s : ¬ (13 = H.D3DDP2OP_WINFO) := fun e => l3 e.symm
    simp [dd_D3DParseUnknownCommand, hmode, hcmd, hret, h, l2s, l3s, hfit, Nat.add_assoc]

/-- C1 at the scenario of the specification: a viewport-info header with
count `3` at address `100` advances the cursor to `100 + 4 + 3 * 16`. -/
theorem dd_D3DParseUnknownCommand_sized_witness :
    translating.Dd7to9 = true ∧ (100 : Ptr) ≠ 0 ∧ (200 : Ptr) ≠ 0 ∧
    (dd_D3DParseUnknownCommand d3dhal translating none (memWith ⟨28, 0, 3⟩) 100 200).hr
      = DD_OK ∧
    (dd_D3DParseUnknownCommand d3dhal translating none (memWith ⟨28, 0, 3⟩) 100 200).mem.ptrAt
      200 = 100 + 4 + 3 * 16 := by
  have h := (dd_D3DParseUnknownCommand_sized d3dhal translating none (memWith ⟨28, 0, 3⟩)
    100 200 rfl (by decide) (by decide)).1 rfl
  refine ⟨rfl, by decide, by decide, h.1, ?_⟩
  rw [h.2]
  rfl

/-- C2: in translation mode, for a non-null buffer and output pointer, an
opcode outside the three sized classes and outside the three invalid ranges
makes `dd_D3DParseUnknownCommand` return `D3DERR_COMMAND_UNPARSED` and leave
memory, the location behind the output pointer included, as it was. -/
theorem dd_D3DParseUnknownCommand_unparsed (H : D3DHal) (Config : CONFIG)
    (original : Option (Memory → Ptr → Ptr → HRESULT × Memory))
    (mem : Memory) (lpCmd lpRetCmd : Ptr)
    (hmode : Config.Dd7to9 = true) (hcmd : lpCmd ≠ 0) (hret : lpRetCmd ≠ 0)
    (hsized : (mem.cmdAt lpCmd).bCommand.val ≠ H.D3DDP2OP_VIEWPORTINFO ∧
      (mem.cmdAt lpCmd).bCommand.val ≠ H.D3DDP2OP_WINFO ∧
      (mem.cmdAt lpCmd).bCommand.val ≠ 0x0D)
    (hrange : ¬ ((mem.cmdAt lpCmd).bCommand.val ≤ H.D3DDP2OP_INDEXEDTRIANGLELIST) ∧
      (mem.cmdAt lpCmd).bCommand.val ≠ H.D3DDP2OP_RENDERSTATE ∧
      ¬ ((mem.cmdAt lpCmd).bCommand.val ≥ H.D3DDP2OP_LINELIST)) :
    (dd_D3DParseUnknownCommand H Config original mem lpCmd lpRetCmd).hr
      = D3DERR_COMMAND_UNPARSED ∧
    (dd_D3DParseUnknownCommand H Config original mem lpCmd lpRetCmd).mem = mem ∧
    (dd_D3DParseUnknownCommand H Config original mem lpCmd lpRetCmd).mem.ptrAt lpRetCmd
      = mem.ptrAt lpRetCmd := by
  obtain ⟨s1, s2, s3⟩ := hsized
  obtain ⟨r1, r2, r3⟩ := hrange
  have hnot : ¬ ((mem.cmdAt lpCmd).bCommand.val ≤ H.D3DDP2OP_INDEXEDTRIANGLELIST ∨
      (mem.cmdAt lpCmd).bCommand.val = H.D3DDP2OP_RENDERSTATE ∨
      (mem.cmdAt lpCmd).bCommand.val ≥ H.D3DDP2OP_LINELIST) := by
    rintro (h | h | h)
    · exact r1 h
    · exact r2 h
    · exact r3 h
  have hres : dd_D3DParseUnknownCommand H Config original mem lpCmd lpRetCmd
      = ⟨D3DERR_COMMAND_UNPARSED, mem, []⟩ := by
    unfold dd_D3DParseUnknownCommand
    rw [if_pos hmode, if_neg (by rintro (h | h); exact hcmd h; exact hret h)]
    simp only []
    rw [if_neg s1, if_neg s2, if_neg s3, if_neg hnot]
  rw [hres]
  exact ⟨rfl, rfl, rfl⟩

/-- C2 at opcode `4`, which the driver kit header places between the
indexed-triangle-list opcode `3` and the render-state opcode `8`. -/
theorem dd_D3DParseUnknownCommand_unparsed_witness :
    (dd_D3DParseUnknownCommand d3dhal translating none (memWith ⟨4, 9, 5⟩) 100 200).hr
      = D3DERR_COMMAND_UNPARSED ∧
    (dd_D3DParseUnknownCommand d3dhal translating none (memWith ⟨4, 9, 5⟩) 100 200).mem
      = memWith ⟨4, 9, 5⟩ ∧
    (dd_D3DParseUnknownCommand d3dhal translating none (memWith ⟨4, 9, 5⟩) 100 200).mem.ptrAt
      200 = (memWith ⟨4, 9, 5⟩).ptrAt 200 :=
  dd_D3DParseUnknownCommand_unparsed d3dhal translating none (memWith ⟨4, 9, 5⟩) 100 200
    rfl (by decide) (by decide) (by decide) (by decide)

/-- C3: in translation mode, for a non-null buffer and output pointer, an
opcode that is none of the three sized opcodes and is at most the
indexed-triangle-list opcode, or equal to the render-state opcode, or at least
the line-list opcode, makes `dd_D3DParseUnknownCommand` return
`DDERR_INVALIDPARAMS` and leave memory, the location behind the output pointer
included, as it was. -/
theorem dd_D3DParseUnknownCommand_invalid (H : D3DHal) (Config : CONFIG)
    (original : Option (Memory → Ptr → Ptr → HRESULT × Memory))
    (mem : Memory) (lpCmd lpRetCmd : Ptr)
    (hmode : Config.Dd7to9 = true) (hcmd : lpCmd ≠ 0) (hret : lpRetCmd ≠ 0)
    (hsized : (mem.cmdAt lpCmd).bCommand.val ≠ H.D3DDP2OP_VIEWPORTINFO ∧
      (mem.cmdAt lpCmd).bCommand.val ≠ H.D3DDP2OP_WINFO ∧
      (mem.cmdAt lpCmd).bCommand.val ≠ 0x0D)
    (hrange : (mem.cmdAt lpCmd).bCommand.val ≤ H.D3DDP2OP_INDEXEDTRIANGLELIST ∨
      (mem.cmdAt lpCmd).bCommand.val = H.D3DDP2OP_RENDERSTATE ∨
      (mem.cmdAt lpCmd).bCommand.val ≥ H.D3DDP2OP_LINELIST) :
    (dd_D3DParseUnknownCommand H Config original mem lpCmd lpRetCmd).hr
      = DDERR_INVALIDPARAMS ∧
    (dd_D3DParseUnknownCommand H Config original mem lpCmd lpRetCmd).mem = mem ∧
    (dd_D3DParseUnknownCommand H Config original mem lpCmd lpRetCmd).mem.ptrAt lpRetCmd
      = mem.ptrAt lpRetCmd := by
  obtain ⟨s1, s2, s3⟩ := hsized
  have hres : dd_D3DParseUnknownCommand H Config original mem lpCmd lpRetCmd
      = ⟨DDERR_INVALIDPARAMS, mem, []⟩ := by
    unfold dd_D3DParseUnknownCommand
    rw [if_pos hmode, if_neg (by rintro (h | h); exact hcmd h; exact hret h)]
    simp only []
    rw [if_neg s1, if_neg s2, if_neg s3, if_pos hrange]
  rw [hres]
  exact ⟨rfl, rfl, rfl⟩

/-- C3 at the scenario of the specification: the render-state opcode (`8` in
the driver kit header) gives `DDERR_INVALIDPARAMS` with the cursor unchanged. -/
theorem dd_D3DParseUnknownCommand_invalid_witness :
    (memWith ⟨8, 0, 1⟩).cmdAt 100 = ⟨⟨d3dhal.D3DDP2OP_RENDERSTATE, by decide⟩, 0, 1⟩ ∧
    (dd_D3DParseUnknownCommand d3dhal translating none (memWith ⟨8, 0, 1⟩) 100 200).hr
      = DDERR_INVALIDPARAMS ∧
    (dd_D3DParseUnknownCommand d3dhal translating none (memWith ⟨8, 0, 1⟩) 100 200).mem
      = memWith ⟨8, 0, 1⟩ ∧
    (dd_D3DParseUnknownCommand d3dhal translating none (memWith ⟨8, 0, 1⟩) 100 200).mem.ptrAt
      200 = (memWith ⟨8, 0, 1⟩).ptrAt 200 :=
  ⟨rfl, dd_D3DParseUnknownCommand_invalid d3dhal translating none (memWith ⟨8, 0, 1⟩) 100 200
    rfl (by decide) (by decide) (by decide) (by decide)⟩

/-! ### Enumeration -/

theorem callsOf_append (xs ys : List EnumEvent) :
    callsOf (xs ++ ys) = callsOf xs ++ callsOf ys := by
  induction xs with
  | nil => rfl
  | cons e rest ih => cases e <;> simp [callsOf, ih]

theorem callbackAdapters_append (xs ys : List EnumEvent) :
    callbackAdapters (xs ++ ys) = callbackAdapters xs ++ callbackAdapters ys := by
  induction xs with
  | nil => rfl
  | cons e rest ih => cases e <;> simp [callbackAdapters, ih]

theorem storesOf_append (xs ys : List EnumEvent) :
    storesOf (xs ++ ys) = storesOf xs ++ storesOf ys := by
  induction xs with
  | nil => rfl
  | cons e rest ih => cases e <;> simp [storesOf, ih]

theorem replayStores_append (xs ys cache : List DDDeviceInfo) :
    replayStores (xs ++ ys) cache = replayStores ys (replayStores xs cache) := by
  induction xs generalizing cache with
  | nil => rfl
  | cons i rest ih => simp [replayStores, ih]

theorem callsOf_length (xs : List EnumEvent) :
    (callsOf xs).length = (callbackAdapters xs).length := by
  induction xs with
  | nil => rfl
  | cons e rest ih => cases e <;> simp [callsOf, callbackAdapters, ih]

/-- The `switch` reaches its `default` only for a value that is none of the
four enumerators. -/
theorem enumCallOf_none (env : EnumEnv) (T : DirectDrawEnumerateTypes) (g : Option GUID)
    (d n : String) (c h : Ptr) (hn : enumCallOf env T g d n c h = none) :
    ∃ v, T = unlisted v := by
  cases T <;> simp [enumCallOf] at hn
  exact ⟨_, rfl⟩

/-- What one loop iteration does: the events it appends all carry the current
`Adapter`, the cache is the old one after the logged stores, and the iteration
is a failed identity query, a `default` of the `switch`, or ends in exactly one
callback invocation whose result decides the `break`. -/
theorem enumBody_spec (S : DDrawSdk) (env : EnumEnv) (d3d9 : IDirect3D9) (cb : Callback)
    (ctx : Ptr) (T : DirectDrawEnumerateTypes) (a : Int) (st : EnumState) :
    ∃ new, (enumBody S env d3d9 cb ctx T a st).1.events = st.events ++ new ∧
      (enumBody S env d3d9 cb ctx T a st).1.g_DeviceCache
        = replayStores (storesOf new) st.g_DeviceCache ∧
      (∀ e ∈ new, e.adapter = a) ∧
      ((new = [.identify a false] ∧ a ≠ -1 ∧
          d3d9.GetAdapterIdentifier (int_to_UINT a) = none ∧
          (enumBody S env d3d9 cb ctx T a st).2 = true ∧
          (enumBody S env d3d9 cb ctx T a st).1.hr = DDERR_UNSUPPORTED) ∨
       ((∀ k, EnumEvent.identify k false ∉ new) ∧ (∃ v, T = unlisted v) ∧
          callbackAdapters new = [] ∧
          (enumBody S env d3d9 cb ctx T a st).2 = true ∧
          (enumBody S env d3d9 cb ctx T a st).1.hr = DDERR_UNSUPPORTED) ∨
       ((∀ k, EnumEvent.identify k false ∉ new) ∧ callbackAdapters new = [a] ∧
          (∃ call, callsOf new = [call] ∧
            (enumBody S env d3d9 cb ctx T a st).2
              = decide (cb (callsOf st.events) call = S.DDENUMRET_CANCEL)) ∧
          (enumBody S env d3d9 cb ctx T a st).1.hr = st.hr)) := by
  unfold enumBody
  by_cases ha : a = -1
  · rw [if_pos ha]
    unfold enumInvoke
    cases hc : enumCallOf env T none "Primary Display Driver" "display" ctx 0 with
    | none =>
      refine ⟨[], by simp, by simp [storesOf, replayStores], by simp, Or.inr (Or.inl ?_)⟩
      exact ⟨by simp, enumCallOf_none _ _ _ _ _ _ _ hc, rfl, rfl, rfl⟩
    | some call =>
      refine ⟨[.callback a call], by simp, by simp [storesOf, replayStores],
        by simp [EnumEvent.adapter], Or.inr (Or.inr ?_)⟩
      exact ⟨by simp, rfl, ⟨call, rfl, rfl⟩, rfl⟩
  · rw [if_neg ha]
    cases hq : d3d9.GetAdapterIdentifier (int_to_UINT a) with
    | none =>
      refine ⟨[.identify a false], by simp, by simp [storesOf, replayStores],
        by simp [EnumEvent.adapter], Or.inl ?_⟩
      exact ⟨rfl, ha, rfl, rfl, rfl⟩
    | some Identifier =>
      simp only []
      unfold enumInvoke
      generalize hg : (if (!(FindGUIDByDeviceName Identifier.DeviceName Identifier.Description
        st.myGUID st.g_DeviceCache).1) = true then
          if IsEqualGUID st.lastGUID Identifier.DeviceIdentifier = true then
            Identifier.DeviceIdentifier.incData1 else Identifier.DeviceIdentifier
        else (FindGUIDByDeviceName Identifier.DeviceName Identifier.Description
          st.myGUID st.g_DeviceCache).2) = myGUID
      generalize hm : (if T = DDET_ENUMCALLBACKEXA ∨ T = DDET_ENUMCALLBACKEXW then
        env.GetMonitorFromDeviceName Identifier.DeviceName else 0) = hMonitor
      cases hc : enumCallOf env T (some myGUID) Identifier.Description Identifier.DeviceName
          ctx hMonitor with
      | none =>
        refine ⟨[.identify a true, .store a ⟨myGUID, Identifier.DeviceName,
          Identifier.Description, int_to_UINT a⟩], by simp, by simp [storesOf, replayStores],
          by simp [EnumEvent.adapter], Or.inr (Or.inl ?_)⟩
        exact ⟨by simp, enumCallOf_none _ _ _ _ _ _ _ hc, rfl, rfl, rfl⟩
      | some call =>
        refine ⟨[.identify a true, .store a ⟨myGUID, Identifier.DeviceName,
          Identifier.Description, int_to_UINT a⟩, .callback a call], by simp,
          by simp [storesOf, replayStores], by simp [EnumEvent.adapter], Or.inr (Or.inr ?_)⟩
        refine ⟨by simp, rfl, ⟨call, rfl, ?_⟩, rfl⟩
        simp [callsOf_append, callsOf]

/-- What the loop does from any state: the events it appends carry values of
`Adapter` from the current one on, the cache is the old one after the logged
stores, and a failed identity query makes the status `DDERR_UNSUPPORTED` and is
the only event at or beyond its adapter. -/
theorem enumLoop_spec (S : DDrawSdk) (env : EnumEnv) (d3d9 : IDirect3D9) (cb : Callback)
    (ctx : Ptr) (T : DirectDrawEnumerateTypes) (n : Nat) :
    ∀ (a : Int) (st : EnumState),
    ∃ new, (enumLoop S env d3d9 cb ctx T n a st).events = st.events ++ new ∧
      (enumLoop S env d3d9 cb ctx T n a st).g_DeviceCache
        = replayStores (storesOf new) st.g_DeviceCache ∧
      (∀ e ∈ new, a ≤ e.adapter) ∧
      (∀ k, EnumEvent.identify k false ∈ new →
        (enumLoop S env d3d9 cb ctx T n a st).hr = DDERR_UNSUPPORTED ∧
        d3d9.GetAdapterIdentifier (int_to_UINT k) = none ∧
        ∀ e ∈ new, e = .identify k false ∨ e.adapter < k) := by
  induction n with
  | zero =>
    intro a st
    exact ⟨[], by simp [enumLoop], by simp [enumLoop, storesOf, replayStores], by simp, by simp⟩
  | succ n ih =>
    intro a st
    obtain ⟨new1, hev, hcache, htag, hcase⟩ := enumBody_spec S env d3d9 cb ctx T a st
    rcases hb : enumBody S env d3d9 cb ctx T a st with ⟨st1, brk⟩
    rw [hb] at hev hcache hcase
    simp only [] at hev hcache hcase
    cases brk with
    | true =>
      have hl : enumLoop S env d3d9 cb ctx T (n + 1) a st = st1 := by
        simp [enumLoop, hb]
      rw [hl]
      refine ⟨new1, hev, hcache, fun e he => le_of_eq (htag e he).symm, ?_⟩
      intro k hk
      rcases hcase with ⟨hnew, _, hq, _, hhr⟩ | ⟨hno, _⟩ | ⟨hno, _⟩
      · rw [hnew] at hk
        simp at hk
        subst hk
        refine ⟨hhr, hq, ?_⟩
        intro e he
        rw [hnew] at he
        simp at he
        exact Or.inl he
      · exact absurd hk (hno k)
      · exact absurd hk (hno k)
    | false =>
      have hl : enumLoop S env d3d9 cb ctx T (n + 1) a st
          = enumLoop S env d3d9 cb ctx T n (a + 1) st1 := by
        simp [enumLoop, hb]
      rw [hl]
      obtain ⟨new2, hev2, hcache2, htag2, hfail2⟩ := ih (a + 1) st1
      have hno : ∀ k, EnumEvent.identify k false ∉ new1 := by
        rcases hcase with ⟨_, _, _, hbrk, _⟩ | ⟨_, _, _, hbrk, _⟩ | ⟨hno, _⟩
        · exact absurd hbrk (by simp)
        · exact absurd hbrk (by simp)
        · exact hno
      refine ⟨new1 ++ new2, ?_, ?_, ?_, ?_⟩
      · rw [hev2, hev, List.append_assoc]
      · rw [hcache2, hcache, storesOf_append, replayStores_append]
      · intro e he
        rcases List.mem_append.mp he with h | h
        · exact le_of_eq (htag e h).symm
        · have := htag2 e h
          omega
      · intro k hk
        rcases List.mem_append.mp hk with h | h
        · exact absurd h (hno k)
        · obtain ⟨hhr, hq, hothers⟩ := hfail2 k h
          refine ⟨hhr, hq, ?_⟩
          intro e he
          rcases List.mem_append.mp he with h1 | h2
          · right
            have h3 := htag e h1
            have h4 := htag2 _ h
            simp only [EnumEvent.adapter] at h4
            omega
          · exact hothers e h2

/-- The loop under a callback that answers `DDENUMRET_OK` to its next `m`
invocations and `DDENUMRET_CANCEL` to the one after: it makes exactly `m + 1`
iterations, one callback invocation each, and keeps the status. -/
theorem enumLoop_cancel (S : DDrawSdk) (env : EnumEnv) (d3d9 : IDirect3D9) (cb : Callback)
    (ctx : Ptr) (T : DirectDrawEnumerateTypes) (hT : ∀ v, T ≠ unlisted v) (m : Nat) :
    ∀ (n : Nat) (a : Int) (st : EnumState), m < n →
    (∀ i : Nat, i ≤ m → a + i = -1 ∨
      d3d9.GetAdapterIdentifier (int_to_UINT (a + i)) ≠ none) →
    (∀ previous call, previous.length < (callsOf st.events).length + m →
      cb previous call = S.DDENUMRET_OK) →
    (∀ previous call, previous.length = (callsOf st.events).length + m →
      cb previous call = S.DDENUMRET_CANCEL) →
    ∃ new, (enumLoop S env d3d9 cb ctx T n a st).events = st.events ++ new ∧
      (enumLoop S env d3d9 cb ctx T n a st).hr = st.hr ∧
      (enumLoop S env d3d9 cb ctx T n a st).g_DeviceCache
        = replayStores (storesOf new) st.g_DeviceCache ∧
      callbackAdapters new = adaptersFrom a (m + 1) ∧
      (∀ e ∈ new, e.adapter ≤ a + m) := by
  induction m with
  | zero =>
    intro n a st hn hq _ hcancel
    obtain ⟨n, rfl⟩ : ∃ n1, n = n1 + 1 := ⟨n - 1, by omega⟩
    obtain ⟨new1, hev, hcache, htag, hcase⟩ := enumBody_spec S env d3d9 cb ctx T a st
    rcases hb : enumBody S env d3d9 cb ctx T a st with ⟨st1, brk⟩
    rw [hb] at hev hcache hcase
    simp only [] at hev hcache hcase
    rcases hcase with ⟨_, hne, hnone, _⟩ | ⟨_, ⟨v, hv⟩, _⟩ | ⟨_, hcbs, ⟨call, _, hbrk⟩, hhr⟩
    · rcases hq 0 (le_refl _) with h | h
      · exact absurd (by simpa using h) hne
      · exact absurd (by simpa using hnone) h
    · exact absurd hv (hT v)
    · have hbt : brk = true := by
        rw [hbrk, hcancel (callsOf st.events) call (by simp)]
        simp
      subst hbt
      have hl : enumLoop S env d3d9 cb ctx T (n + 1) a st = st1 := by
        simp [enumLoop, hb]
      rw [hl]
      refine ⟨new1, hev, hhr, hcache, by simp [hcbs, adaptersFrom], ?_⟩
      intro e he
      have := htag e he
      omega
  | succ m ih =>
    intro n a st hn hq hok hcancel
    obtain ⟨n, rfl⟩ : ∃ n1, n = n1 + 1 := ⟨n - 1, by omega⟩
    obtain ⟨new1, hev, hcache, htag, hcase⟩ := enumBody_spec S env d3d9 cb ctx T a st
    rcases hb : enumBody S env d3d9 cb ctx T a st with ⟨st1, brk⟩
    rw [hb] at hev hcache hcase
    simp only [] at hev hcache hcase
    rcases hcase with ⟨_, hne, hnone, _⟩ | ⟨_, ⟨v, hv⟩, _⟩ | ⟨_, hcbs, ⟨call, hcall, hbrk⟩, hhr⟩
    · rcases hq 0 (Nat.zero_le _) with h | h
      · exact absurd (by simpa using h) hne
      · exact absurd (by simpa using hnone) h
    · exact absurd hv (hT v)
    · have hbf : brk = false := by
        rw [hbrk, hok (callsOf st.events) call (by omega)]
        simpa using S.ok_ne_cancel
      subst hbf
      have hl : enumLoop S env d3d9 cb ctx T (n + 1) a st
          = enumLoop S env d3d9 cb ctx T n (a + 1) st1 := by
        simp [enumLoop, hb]
      rw [hl]
      have hlen : (callsOf st1.events).length = (callsOf st.events).length + 1 := by
        rw [hev, callsOf_append, hcall]; simp
      obtain ⟨new2, hev2, hhr2, hcache2, hcbs2, htag2⟩ := ih n (a + 1) st1 (by omega)
        (fun i hi => by
          have := hq (i + 1) (by omega)
          have e : a + 1 + (i : Int) = a + ((i + 1 : Nat) : Int) := by push_cast; ring
          rw [e]; exact this)
        (fun previous call h => hok previous call (by omega))
        (fun previous call h => hcancel previous call (by omega))
      refine ⟨new1 ++ new2, ?_, ?_, ?_, ?_, ?_⟩
      · rw [hev2, hev, List.append_assoc]
      · rw [hhr2, hhr]
      · rw [hcache2, hcache, storesOf_append, replayStores_append]
      · rw [callbackAdapters_append, hcbs, hcbs2]
        rfl
      · intro e he
        rcases List.mem_append.mp he with h | h
        · have := htag e h
          omega
        · have := htag2 e h
          push_cast
          omega

/-- `AdapterCount` is a non-negative-or-negative `int` below `2 ^ 31`. -/
theorem AdapterCount_lt (S : DDrawSdk) (dwFlags : Nat) (d3d9 : IDirect3D9) :
    AdapterCount S dwFlags d3d9 < 2147483648 := by
  unfold AdapterCount UINT_to_int
  split
  · decide
  · split <;> omega

/-- The conversion to `UINT` keeps an adapter index below `2 ^ 32`. -/
theorem int_to_UINT_natCast (k : Nat) (hk : k < 4294967296) : int_to_UINT (k : Int) = k := by
  unfold int_to_UINT
  omega

/-- The handler, once the callback is non-null and the factory resolves, is
the loop run from `Adapter = -1` on the cache with `hr = DD_OK`. -/
theorem DirectDrawEnumerateHandler_eq_loop (S : DDrawSdk) (env : EnumEnv)
    (cache : List DDDeviceInfo) (cb : Callback) (ctx : Ptr) (dwFlags : Nat)
    (T : DirectDrawEnumerateTypes) (create : Nat → Option IDirect3D9) (d3d9 : IDirect3D9)
    (hcreate : env.Direct3DCreate9 = some create)
    (hobj : create S.D3D_SDK_VERSION = some d3d9) :
    DirectDrawEnumerateHandler S env cache (some cb) ctx dwFlags T =
      ⟨(enumLoop S env d3d9 cb ctx T (AdapterCount S dwFlags d3d9 + 1).toNat (-1)
          ⟨cache, GUID.zero, GUID.zero, DD_OK, []⟩).hr,
       (enumLoop S env d3d9 cb ctx T (AdapterCount S dwFlags d3d9 + 1).toNat (-1)
          ⟨cache, GUID.zero, GUID.zero, DD_OK, []⟩).g_DeviceCache,
       (enumLoop S env d3d9 cb ctx T (AdapterCount S dwFlags d3d9 + 1).toNat (-1)
          ⟨cache, GUID.zero, GUID.zero, DD_OK, []⟩).events⟩ := by
  simp [DirectDrawEnumerateHandler, hcreate, hobj]

/-- A loop of one iteration is its body. -/
theorem enumLoop_one (S : DDrawSdk) (env : EnumEnv) (d3d9 : IDirect3D9) (cb : Callback)
    (ctx : Ptr) (T : DirectDrawEnumerateTypes) (a : Int) (st : EnumState) :
    enumLoop S env d3d9 cb ctx T 1 a st = (enumBody S env d3d9 cb ctx T a st).1 := by
  rcases h : enumBody S env d3d9 cb ctx T a st with ⟨st1, brk⟩
  cases brk <;> simp [enumLoop, h]

/-- What the handler leaves behind in every case: the cache is the old one
after the logged stores, and a failed identity query is a failure of the
factory the environment returned, happens only with the flag set, makes the
status `DDERR_UNSUPPORTED` and is the only event at or beyond its adapter. -/
theorem DirectDrawEnumerateHandler_spec (S : DDrawSdk) (env : EnumEnv)
    (cache : List DDDeviceInfo) (lpCallback : Option Callback) (ctx : Ptr) (dwFlags : Nat)
    (T : DirectDrawEnumerateTypes) :
    (DirectDrawEnumerateHandler S env cache lpCallback ctx dwFlags T).g_DeviceCache
      = replayStores
          (storesOf (DirectDrawEnumerateHandler S env cache lpCallback ctx dwFlags T).events)
          cache ∧
    ∀ k, EnumEvent.identify k false ∈
        (DirectDrawEnumerateHandler S env cache lpCallback ctx dwFlags T).events →
      (DirectDrawEnumerateHandler S env cache lpCallback ctx dwFlags T).hr
        = DDERR_UNSUPPORTED ∧
      (∃ create d3d9, env.Direct3DCreate9 = some create ∧
        create S.D3D_SDK_VERSION = some d3d9 ∧
        d3d9.GetAdapterIdentifier (int_to_UINT k) = none) ∧
      dwFlags &&& S.DDENUM_ATTACHEDSECONDARYDEVICES = S.DDENUM_ATTACHEDSECONDARYDEVICES ∧
      ∀ e ∈ (DirectDrawEnumerateHandler S env cache lpCallback ctx dwFlags T).events,
        e = .identify k false ∨ e.adapter < k := by
  cases lpCallback with
  | none => simp [DirectDrawEnumerateHandler, storesOf, replayStores]
  | some cb =>
    cases hcreate : env.Direct3DCreate9 with
    | none => simp [DirectDrawEnumerateHandler, hcreate, storesOf, replayStores]
    | some create =>
      cases hobj : create S.D3D_SDK_VERSION with
      | none => simp [DirectDrawEnumerateHandler, hcreate, hobj, storesOf, replayStores]
      | some d3d9 =>
        rw [DirectDrawEnumerateHandler_eq_loop S env cache cb ctx dwFlags T create d3d9
          hcreate hobj]
        obtain ⟨new, hev, hcache, _, hfail⟩ := enumLoop_spec S env d3d9 cb ctx T
          (AdapterCount S dwFlags d3d9 + 1).toNat (-1) ⟨cache, GUID.zero, GUID.zero, DD_OK, []⟩
        simp only [List.nil_append] at hev hcache
        simp only []
        refine ⟨by rw [hev]; exact hcache, ?_⟩
        intro k hk
        have hflag : dwFlags &&& S.DDENUM_ATTACHEDSECONDARYDEVICES
            = S.DDENUM_ATTACHEDSECONDARYDEVICES := by
          by_contra hflag
          have hcount : (AdapterCount S dwFlags d3d9 + 1).toNat = 1 := by
            simp [AdapterCount, hflag]
          rw [hcount, enumLoop_one] at hk
          obtain ⟨new1, hev1, _, _, hcase⟩ := enumBody_spec S env d3d9 cb ctx T (-1)
            ⟨cache, GUID.zero, GUID.zero, DD_OK, []⟩
          rw [hev1] at hk
          simp only [List.nil_append] at hk
          rcases hcase with ⟨_, hne, _⟩ | ⟨hno, _⟩ | ⟨hno, _⟩
          · exact hne rfl
          · exact hno k hk
          · exact hno k hk
        rw [hev] at hk ⊢
        obtain ⟨h1, h2, h3⟩ := hfail k hk
        exact ⟨h1, ⟨create, d3d9, rfl, hobj, h2⟩, hflag, h3⟩

theorem adaptersFrom_length (a : Int) (count : Nat) : (adaptersFrom a count).length = count := by
  induction count generalizing a with
  | zero => rfl
  | succ n ih => simp [adaptersFrom, ih]

/-- C4, at the input where the code departs from it: three adapters with the
same native identifier, different device names and an empty cache.  The
handler passes the native identifier for adapter `0` and the same perturbed
identifier for adapters `1` and `2`, because `lastGUID` holds the native
identifier of the preceding adapter and not the identifier assigned to it. -/
theorem DirectDrawEnumerateHandler_adjacent_collision :
    (threeMonitors.map fun i => i.DeviceIdentifier) = [cardGUID, cardGUID, cardGUID] ∧
    callsOf (DirectDrawEnumerateHandler winsdk (envOf (factoryOf threeMonitors)) []
      (some alwaysOk) 0 1 DDET_ENUMCALLBACKA).events =
      [.A none "Primary Display Driver" "display" 0,
       .A (some cardGUID) "card" "DISPLAY1" 0,
       .A (some cardGUID.incData1) "card" "DISPLAY2" 0,
       .A (some cardGUID.incData1) "card" "DISPLAY3" 0] := by
  decide

/-- C5, at the input where the code departs from it: a first pass over one
adapter, then a pass in which a new adapter with the same native identifier
comes first.  The first pass assigns the native identifier to `DISPLAY1`; in
the second pass the new adapter takes that identifier and overwrites the
cached record, so `DISPLAY1` is no longer found by name and is assigned the
perturbed identifier. -/
theorem DirectDrawEnumerateHandler_identifier_not_stable :
    callsOf (DirectDrawEnumerateHandler winsdk (envOf (factoryOf firstPass)) []
      (some alwaysOk) 0 1 DDET_ENUMCALLBACKA).events =
      [.A none "Primary Display Driver" "display" 0,
       .A (some cardGUID) "card" "DISPLAY1" 0] ∧
    callsOf (DirectDrawEnumerateHandler winsdk (envOf (factoryOf secondPass))
      (DirectDrawEnumerateHandler winsdk (envOf (factoryOf firstPass)) []
        (some alwaysOk) 0 1 DDET_ENUMCALLBACKA).g_DeviceCache
      (some alwaysOk) 0 1 DDET_ENUMCALLBACKA).events =
      [.A none "Primary Display Driver" "display" 0,
       .A (some cardGUID) "card" "DISPLAY2" 0,
       .A (some cardGUID.incData1) "card" "DISPLAY1" 0] := by
  decide

/-- C6: when the attached-secondary-devices bit is not set in `dwFlags`, the
callback is non-null and the factory resolves, `DirectDrawEnumerateHandler`
returns `DD_OK`, leaves the device cache as it was, and invokes the callback
exactly once, with a null identifier, the description "Primary Display Driver"
and the name "display" (in their wide transliteration for the two wide
callback types), whatever adapter count the factory reports. -/
theorem DirectDrawEnumerateHandler_primary_only (S : DDrawSdk) (env : EnumEnv)
    (cache : List DDDeviceInfo) (cb : Callback) (ctx : Ptr) (dwFlags : Nat)
    (T : DirectDrawEnumerateTypes) (create : Nat → Option IDirect3D9) (d3d9 : IDirect3D9)
    (hflag : dwFlags &&& S.DDENUM_ATTACHEDSECONDARYDEVICES ≠ S.DDENUM_ATTACHEDSECONDARYDEVICES)
    (hcreate : env.Direct3DCreate9 = some create)
    (hobj : create S.D3D_SDK_VERSION = some d3d9) :
    (T = DDET_ENUMCALLBACKA →
      DirectDrawEnumerateHandler S env cache (some cb) ctx dwFlags T =
        ⟨DD_OK, cache,
          [.callback (-1) (.A none "Primary Display Driver" "display" ctx)]⟩) ∧
    (T = DDET_ENUMCALLBACKEXA →
      DirectDrawEnumerateHandler S env cache (some cb) ctx dwFlags T =
        ⟨DD_OK, cache,
          [.callback (-1) (.ExA none "Primary Display Driver" "display" ctx 0)]⟩) ∧
    (T = DDET_ENUMCALLBACKEXW →
      DirectDrawEnumerateHandler S env cache (some cb) ctx dwFlags T =
        ⟨DD_OK, cache,
          [.callback (-1) (.ExW none (env.mbstowcs_s 128 "Primary Display Driver" 128)
            (env.mbstowcs_s 32 "display" 32) ctx 0)]⟩) ∧
    (T = DDET_ENUMCALLBACKW →
      DirectDrawEnumerateHandler S env cache (some cb) ctx dwFlags T =
        ⟨DD_OK, cache,
          [.callback (-1) (.W none (env.mbstowcs_s 128 "Primary Display Driver" 128)
            (env.mbstowcs_s 32 "display" 32) ctx)]⟩) := by
  have hcount : (AdapterCount S dwFlags d3d9 + 1).toNat = 1 := by
    simp [AdapterCount, hflag]
  rw [DirectDrawEnumerateHandler_eq_loop S env cache cb ctx dwFlags T create d3d9 hcreate hobj,
    hcount]
  rw [enumLoop_one]
  refine ⟨?_, ?_, ?_, ?_⟩ <;> intro hT <;> subst hT <;>
    simp [enumBody, enumInvoke, enumCallOf]

/-- C6 at flags `0`, the value `dd_DirectDrawEnumerateA` passes, with a factory
that reports three adapters. -/
theorem DirectDrawEnumerateHandler_primary_only_witness :
    DirectDrawEnumerateHandler winsdk (envOf (factoryOf threeMonitors)) []
      (some alwaysOk) 5 0 DDET_ENUMCALLBACKA =
        ⟨DD_OK, [], [.callback (-1) (.A none "Primary Display Driver" "display" 5)]⟩ :=
  (DirectDrawEnumerateHandler_primary_only winsdk (envOf (factoryOf threeMonitors)) []
    alwaysOk 5 0 DDET_ENUMCALLBACKA (fun _ => some (factoryOf threeMonitors))
    (factoryOf threeMonitors) (by decide) rfl rfl).1 rfl

/-- C7: with a non-null callback of one of the four callback types and a
factory that resolves, if there is a `j`-th loop iteration (`1 ≤ j ≤
AdapterCount + 1`), the identity queries of adapters `0 .. j - 2` succeed, and
the callback returns `DDENUMRET_OK` on its first `j - 1` invocations and
`DDENUMRET_CANCEL` on the `j`-th, then `DirectDrawEnumerateHandler` returns
`DD_OK`, invokes the callback exactly `j` times, at `Adapter = -1, 0, ..,
j - 2` in this order, makes no identity query, cache update or invocation for
any later adapter, and the cache is the old one after the logged stores. -/
theorem DirectDrawEnumerateHandler_cancel (S : DDrawSdk) (env : EnumEnv)
    (cache : List DDDeviceInfo) (cb : Callback) (ctx : Ptr) (dwFlags : Nat)
    (T : DirectDrawEnumerateTypes) (create : Nat → Option IDirect3D9) (d3d9 : IDirect3D9)
    (j : Nat)
    (hcreate : env.Direct3DCreate9 = some create)
    (hobj : create S.D3D_SDK_VERSION = some d3d9)
    (hT : ∀ v, T ≠ unlisted v)
    (hj : 1 ≤ j) (hjn : (j : Int) ≤ AdapterCount S dwFlags d3d9 + 1)
    (hident : ∀ k : Nat, k + 2 ≤ j → d3d9.GetAdapterIdentifier k ≠ none)
    (hok : ∀ previous call, previous.length + 1 < j → cb previous call = S.DDENUMRET_OK)
    (hcancel : ∀ previous call, previous.length + 1 = j →
      cb previous call = S.DDENUMRET_CANCEL) :
    (DirectDrawEnumerateHandler S env cache (some cb) ctx dwFlags T).hr = DD_OK ∧
    (callsOf (DirectDrawEnumerateHandler S env cache (some cb) ctx dwFlags T).events).length
      = j ∧
    callbackAdapters (DirectDrawEnumerateHandler S env cache (some cb) ctx dwFlags T).events
      = adaptersFrom (-1) j ∧
    (∀ e ∈ (DirectDrawEnumerateHandler S env cache (some cb) ctx dwFlags T).events,
      e.adapter ≤ (j : Int) - 2) ∧
    (DirectDrawEnumerateHandler S env cache (some cb) ctx dwFlags T).g_DeviceCache
      = replayStores
          (storesOf (DirectDrawEnumerateHandler S env cache (some cb) ctx dwFlags T).events)
          cache := by
  obtain ⟨m, rfl⟩ : ∃ m, j = m + 1 := ⟨j - 1, by omega⟩
  have hlt := AdapterCount_lt S dwFlags d3d9
  rw [DirectDrawEnumerateHandler_eq_loop S env cache cb ctx dwFlags T create d3d9 hcreate hobj]
  obtain ⟨new, hev, hhr, hcache, hcbs, htag⟩ := enumLoop_cancel S env d3d9 cb ctx T hT m
    (AdapterCount S dwFlags d3d9 + 1).toNat (-1) ⟨cache, GUID.zero, GUID.zero, DD_OK, []⟩
    (by push_cast at hjn; omega)
    (fun i hi => by
      rcases Nat.eq_zero_or_pos i with h0 | hpos
      · left; subst h0; simp
      · right
        obtain ⟨k, rfl⟩ : ∃ k, i = k + 1 := ⟨i - 1, by omega⟩
        have e : (-1 : Int) + ((k + 1 : Nat) : Int) = (k : Int) := by push_cast; ring
        rw [e, int_to_UINT_natCast k (by push_cast at hjn; omega)]
        exact hident k (by omega))
    (fun previous call h => hok previous call (by simpa [callsOf] using h))
    (fun previous call h => hcancel previous call (by simpa [callsOf] using h))
  simp only [List.nil_append] at hev hcache hhr
  simp only []
  rw [hev, hhr]
  refine ⟨rfl, ?_, hcbs, ?_, hcache⟩
  · rw [callsOf_length, hcbs, adaptersFrom_length]
  · intro e he
    have := htag e he
    push_cast
    omega

/-- C7 at three adapters and a callback that cancels on its second
invocation (`j = 2`): the primary device, adapter `0`, and nothing more. -/
theorem DirectDrawEnumerateHandler_cancel_witness :
    (DirectDrawEnumerateHandler winsdk (envOf (factoryOf threeMonitors)) []
      (some cancelSecond) 0 1 DDET_ENUMCALLBACKA).hr = DD_OK ∧
    (callsOf (DirectDrawEnumerateHandler winsdk (envOf (factoryOf threeMonitors)) []
      (some cancelSecond) 0 1 DDET_ENUMCALLBACKA).events).length = 2 ∧
    callbackAdapters (DirectDrawEnumerateHandler winsdk (envOf (factoryOf threeMonitors)) []
      (some cancelSecond) 0 1 DDET_ENUMCALLBACKA).events = adaptersFrom (-1) 2 ∧
    (∀ e ∈ (DirectDrawEnumerateHandler winsdk (envOf (factoryOf threeMonitors)) []
      (some cancelSecond) 0 1 DDET_ENUMCALLBACKA).events, e.adapter ≤ ((2 : Nat) : Int) - 2) ∧
    (DirectDrawEnumerateHandler winsdk (envOf (factoryOf threeMonitors)) []
      (some cancelSecond) 0 1 DDET_ENUMCALLBACKA).g_DeviceCache
      = replayStores
          (storesOf (DirectDrawEnumerateHandler winsdk (envOf (factoryOf threeMonitors)) []
            (some cancelSecond) 0 1 DDET_ENUMCALLBACKA).events) [] :=
  DirectDrawEnumerateHandler_cancel winsdk (envOf (factoryOf threeMonitors)) []
    cancelSecond 0 1 DDET_ENUMCALLBACKA (fun _ => some (factoryOf threeMonitors))
    (factoryOf threeMonitors) 2 rfl rfl (fun v h => by cases h) (by decide) (by decide)
    (fun k hk => by
      have h0 : k = 0 := by omega
      subst h0
      decide)
    (fun previous call h => by
      have h0 : previous.length ≠ 1 := by omega
      simp [cancelSecond, h0, winsdk])
    (fun previous call h => by
      have h1 : previous.length = 1 := by omega
      simp [cancelSecond, h1, winsdk])

/-- C8: in every enumeration in which the identity query fails at an adapter
`k` (which happens only with the attached-secondary-devices flag set, and is a
failure of `GetAdapterIdentifier` of the factory in use),
`DirectDrawEnumerateHandler` returns `DDERR_UNSUPPORTED`, so not `DD_OK`;
every callback invocation and every `StoreDeviceCache` call it makes is for an
adapter before `k`; and the cache is the old one after those stores. -/
theorem DirectDrawEnumerateHandler_identity_failure (S : DDrawSdk) (env : EnumEnv)
    (cache : List DDDeviceInfo) (lpCallback : Option Callback) (ctx : Ptr) (dwFlags : Nat)
    (T : DirectDrawEnumerateTypes) (k : Int)
    (hfail : EnumEvent.identify k false ∈
      (DirectDrawEnumerateHandler S env cache lpCallback ctx dwFlags T).events) :
    (DirectDrawEnumerateHandler S env cache lpCallback ctx dwFlags T).hr
      = DDERR_UNSUPPORTED ∧
    (DirectDrawEnumerateHandler S env cache lpCallback ctx dwFlags T).hr ≠ DD_OK ∧
    dwFlags &&& S.DDENUM_ATTACHEDSECONDARYDEVICES = S.DDENUM_ATTACHEDSECONDARYDEVICES ∧
    (∃ create d3d9, env.Direct3DCreate9 = some create ∧
      create S.D3D_SDK_VERSION = some d3d9 ∧
      d3d9.GetAdapterIdentifier (int_to_UINT k) = none) ∧
    (∀ Adapter call, EnumEvent.callback Adapter call ∈
      (DirectDrawEnumerateHandler S env cache lpCallback ctx dwFlags T).events → Adapter < k) ∧
    (∀ Adapter info, EnumEvent.store Adapter info ∈
      (DirectDrawEnumerateHandler S env cache lpCallback ctx dwFlags T).events → Adapter < k) ∧
    (DirectDrawEnumerateHandler S env cache lpCallback ctx dwFlags T).g_DeviceCache
      = replayStores
          (storesOf (DirectDrawEnumerateHandler S env cache lpCallback ctx dwFlags T).events)
          cache := by
  obtain ⟨hcache, hspec⟩ := DirectDrawEnumerateHandler_spec S env cache lpCallback ctx dwFlags T
  obtain ⟨hhr, hquery, hflag, hothers⟩ := hspec k hfail
  refine ⟨hhr, by rw [hhr]; decide, hflag, hquery, ?_, ?_, hcache⟩
  · intro Adapter call he
    rcases hothers _ he with h | h
    · cases h
    · exact h
  · intro Adapter info he
    rcases hothers _ he with h | h
    · cases h
    · exact h

/-- C8 at a factory with three adapters whose identity query fails at adapter
`1`, with the flag set and a callback that never cancels. -/
theorem DirectDrawEnumerateHandler_identity_failure_witness :
    EnumEvent.identify 1 false ∈
      (DirectDrawEnumerateHandler winsdk (envOf failingAtOne) [] (some alwaysOk) 0 1
        DDET_ENUMCALLBACKA).events ∧
    (DirectDrawEnumerateHandler winsdk (envOf failingAtOne) [] (some alwaysOk) 0 1
      DDET_ENUMCALLBACKA).hr = DDERR_UNSUPPORTED ∧
    callbackAdapters (DirectDrawEnumerateHandler winsdk (envOf failingAtOne) [] (some alwaysOk)
      0 1 DDET_ENUMCALLBACKA).events = [-1, 0] :=
  ⟨by decide,
   (DirectDrawEnumerateHandler_identity_failure winsdk (envOf failingAtOne) [] (some alwaysOk)
     0 1 DDET_ENUMCALLBACKA 1 (by decide)).1,
   by decide⟩

/-! ### Synchronization state -/

/-- C9: in translation mode, while `IsInitialized` is false the two lock entry
points return `DDERR_UNSUPPORTED`, leave the state as it was and make no
critical-section call; they return `DD_OK` exactly when `IsInitialized` is
true, then entering or leaving `ddcs`.  The state is uninitialized at load
time and after `ExitDDraw`, initialized after `InitDDraw`, and a second
`InitDDraw` changes nothing, whatever the system calls would answer. -/
theorem thread_lock_state_machine (Config : CONFIG)
    (AcquireDDThreadLock ReleaseDDThreadLock : Option (Unit → HRESULT))
    (spinCountOk spinCountOk2 : CriticalSection → Bool) (s : DDrawState)
    (hmode : Config.Dd7to9 = true) :
    (s.IsInitialized = false →
      dd_AcquireDDThreadLock Config AcquireDDThreadLock s = ⟨DDERR_UNSUPPORTED, s, []⟩ ∧
      dd_ReleaseDDThreadLock Config ReleaseDDThreadLock s = ⟨DDERR_UNSUPPORTED, s, []⟩) ∧
    (s.IsInitialized = true →
      dd_AcquireDDThreadLock Config AcquireDDThreadLock s =
        ⟨DD_OK, { s with log := s.log ++ [.EnterCriticalSection ddcs] }, []⟩ ∧
      dd_ReleaseDDThreadLock Config ReleaseDDThreadLock s =
        ⟨DD_OK, { s with log := s.log ++ [.LeaveCriticalSection ddcs] }, []⟩) ∧
    ((dd_AcquireDDThreadLock Config AcquireDDThreadLock s).hr = DD_OK ↔
      s.IsInitialized = true) ∧
    ((dd_ReleaseDDThreadLock Config ReleaseDDThreadLock s).hr = DD_OK ↔
      s.IsInitialized = true) ∧
    DDrawState.initial.IsInitialized = false ∧
    (InitDDraw spinCountOk s).IsInitialized = true ∧
    (ExitDDraw s).IsInitialized = false ∧
    InitDDraw spinCountOk2 (InitDDraw spinCountOk s) = InitDDraw spinCountOk s := by
  refine ⟨?_, ?_, ?_, ?_, rfl, ?_, ?_, ?_⟩
  · intro h
    simp [dd_AcquireDDThreadLock, dd_ReleaseDDThreadLock, hmode, h]
  · intro h
    simp [dd_AcquireDDThreadLock, dd_ReleaseDDThreadLock, hmode, h]
  · cases h : s.IsInitialized <;> simp [dd_AcquireDDThreadLock, hmode, h]
  · cases h : s.IsInitialized <;> simp [dd_ReleaseDDThreadLock, hmode, h]
  · cases h : s.IsInitialized <;> cases h2 : s.RunOnce <;> simp [InitDDraw, h, h2]
  · cases h : s.IsInitialized <;> simp [ExitDDraw, h]
  · cases h : s.IsInitialized <;> cases h2 : s.RunOnce <;> simp [InitDDraw, h, h2]

/-- C9 along one life cycle: the lock is refused at load time, granted after
`InitDDraw`, and refused again after `ExitDDraw`. -/
theorem thread_lock_state_machine_witness :
    (dd_AcquireDDThreadLock translating none DDrawState.initial).hr = DDERR_UNSUPPORTED ∧
    (dd_AcquireDDThreadLock translating none
      (InitDDraw (fun _ => true) DDrawState.initial)).hr = DD_OK ∧
    (dd_AcquireDDThreadLock translating none
      (ExitDDraw (InitDDraw (fun _ => true) DDrawState.initial))).hr = DDERR_UNSUPPORTED ∧
    (dd_AcquireDDThreadLock translating none
      (ExitDDraw (InitDDraw (fun _ => true) DDrawState.initial))).state.log
      = (ExitDDraw (InitDDraw (fun _ => true) DDrawState.initial)).log := by
  have h0 := thread_lock_state_machine translating none none (fun _ => true) (fun _ => true)
    DDrawState.initial rfl
  have h1 := thread_lock_state_machine translating none none (fun _ => true) (fun _ => true)
    (InitDDraw (fun _ => true) DDrawState.initial) rfl
  have h2 := thread_lock_state_machine translating none none (fun _ => true) (fun _ => true)
    (ExitDDraw (InitDDraw (fun _ => true) DDrawState.initial)) rfl
  refine ⟨?_, ?_, ?_, ?_⟩
  · rw [(h0.1 rfl).1]
  · exact h1.2.2.1.mpr rfl
  · rw [(h2.1 rfl).1]
  · rw [(h2.1 rfl).1]

/-! ### Passthrough with an unresolved symbol -/

/-- C10 as stated fails: in passthrough mode with the original symbol
unresolved, `dd_D3DParseUnknownCommand` returns `D3DERR_COMMAND_UNPARSED` and
`dd_SetAppCompatData` returns `DDERR_GENERIC`, neither of which is
`DDERR_UNSUPPORTED`. -/
theorem unresolved_not_always_unsupported :
    forwarding.Dd7to9 = false ∧
    (dd_D3DParseUnknownCommand d3dhal forwarding none (memWith ⟨28, 0, 3⟩) 100 200).hr
      = D3DERR_COMMAND_UNPARSED ∧
    (dd_D3DParseUnknownCommand d3dhal forwarding none (memWith ⟨28, 0, 3⟩) 100 200).hr
      ≠ DDERR_UNSUPPORTED ∧
    (dd_SetAppCompatData forwarding none 3 0).hr = DDERR_GENERIC ∧
    (dd_SetAppCompatData forwarding none 3 0).hr ≠ DDERR_UNSUPPORTED := by
  decide

/-- C10 as amended: in passthrough mode with the original symbol unresolved,
each status-returning entry point makes no call through an original symbol;
`dd_D3DParseUnknownCommand` returns `D3DERR_COMMAND_UNPARSED` and leaves
memory as it was, `dd_SetAppCompatData` returns `DDERR_GENERIC`, and each of
the other sixteen returns `DDERR_UNSUPPORTED`, for all arguments. -/
theorem unresolved_passthrough (Config : CONFIG) (hmode : Config.Dd7to9 = false)
    (S : DDrawSdk) (H : D3DHal) (env : EnumEnv) (cache : List DDDeviceInfo) :
    (∀ s, dd_AcquireDDThreadLock Config none s = ⟨DDERR_UNSUPPORTED, s, []⟩) ∧
    (∀ s, dd_ReleaseDDThreadLock Config none s = ⟨DDERR_UNSUPPORTED, s, []⟩) ∧
    (∀ mem lpCmd lpRetCmd, dd_D3DParseUnknownCommand H Config none mem lpCmd lpRetCmd
      = ⟨D3DERR_COMMAND_UNPARSED, mem, []⟩) ∧
    (∀ Type1 Value, dd_SetAppCompatData Config none Type1 Value = ⟨DDERR_GENERIC, []⟩) ∧
    (∀ a1 a2 a3, dd_DDGetAttachedSurfaceLcl Config none a1 a2 a3 = ⟨DDERR_UNSUPPORTED, []⟩) ∧
    (∀ a1 a2 a3, dd_DSoundHelp Config none a1 a2 a3 = ⟨DDERR_UNSUPPORTED, []⟩) ∧
    (dd_DllCanUnloadNow Config none = ⟨DDERR_UNSUPPORTED, []⟩) ∧
    (∀ a1 a2 a3, dd_GetDDSurfaceLocal Config none a1 a2 a3 = ⟨DDERR_UNSUPPORTED, []⟩) ∧
    (∀ hdc lpDDS arg, dd_GetSurfaceFromDC Config none hdc lpDDS arg
      = ⟨DDERR_UNSUPPORTED, []⟩) ∧
    (∀ a1 a2 a3 a4, dd_RegisterSpecialCase Config none a1 a2 a3 a4
      = ⟨DDERR_UNSUPPORTED, []⟩) ∧
    (∀ compat lpGUID lplpDD pUnkOuter,
      dd_DirectDrawCreate S Config none compat cache lpGUID lplpDD pUnkOuter
        = ⟨DDERR_UNSUPPORTED, .nothing, none, []⟩) ∧
    (∀ dwFlags lplpDDClipper pUnkOuter,
      dd_DirectDrawCreateClipper Config none dwFlags lplpDDClipper pUnkOuter
        = ⟨DDERR_UNSUPPORTED, .nothing, none, []⟩) ∧
    (∀ version compat lpGUID lplpDD riid pUnkOuter,
      dd_DirectDrawCreateEx S Config version none compat cache lpGUID lplpDD riid pUnkOuter
        = ⟨DDERR_UNSUPPORTED, .nothing, none, []⟩) ∧
    (∀ proxy generic rclsid riid ppv,
      dd_DllGetClassObject S Config proxy generic none rclsid riid ppv
        = ⟨DDERR_UNSUPPORTED, .nothing, none, []⟩) ∧
    (∀ lpCallback lpContext,
      dd_DirectDrawEnumerateA S env Config none cache lpCallback lpContext
        = ⟨DDERR_UNSUPPORTED, cache, [], []⟩) ∧
    (∀ lpCallback lpContext dwFlags,
      dd_DirectDrawEnumerateExA S env Config none cache lpCallback lpContext dwFlags
        = ⟨DDERR_UNSUPPORTED, cache, [], []⟩) ∧
    (∀ lpCallback lpContext dwFlags,
      dd_DirectDrawEnumerateExW Config none cache lpCallback lpContext dwFlags
        = ⟨DDERR_UNSUPPORTED, cache, [], []⟩) ∧
    (∀ lpCallback lpContext,
      dd_DirectDrawEnumerateW Config none cache lpCallback lpContext
        = ⟨DDERR_UNSUPPORTED, cache, [], []⟩) := by
  refine ⟨?_, ?_, ?_, ?_, ?_, ?_, ?_, ?_, ?_, ?_, ?_, ?_, ?_, ?_, ?_, ?_, ?_, ?_⟩
  · intro s; simp [dd_AcquireDDThreadLock, hmode]
  · intro s; simp [dd_ReleaseDDThreadLock, hmode]
  · intro mem lpCmd lpRetCmd; simp [dd_D3DParseUnknownCommand, hmode]
  · intro t v; simp [dd_SetAppCompatData, hmode]
  · intro a1 a2 a3; simp [dd_DDGetAttachedSurfaceLcl, hmode]
  · intro a1 a2 a3; simp [dd_DSoundHelp, hmode]
  · simp [dd_DllCanUnloadNow, hmode]
  · intro a1 a2 a3; simp [dd_GetDDSurfaceLocal, hmode]
  · intro a1 a2 a3; simp [dd_GetSurfaceFromDC, hmode]
  · intro a1 a2 a3 a4; simp [dd_RegisterSpecialCase, hmode]
  · intro c g p u; simp [dd_DirectDrawCreate, hmode]
  · intro f p u; simp [dd_DirectDrawCreateClipper, hmode]
  · intro v c g p r u; simp [dd_DirectDrawCreateEx, hmode]
  · intro p g c r v; simp [dd_DllGetClassObject, hmode]
  · intro c x; simp [dd_DirectDrawEnumerateA, hmode]
  · intro c x f; simp [dd_DirectDrawEnumerateExA, hmode]
  · intro c x f; simp [dd_DirectDrawEnumerateExW, hmode]
  · intro c x; simp [dd_DirectDrawEnumerateW, hmode]

/-- C10 as amended, at a passthrough configuration: `dd_DirectDrawCreate` with
an unresolved symbol returns `DDERR_UNSUPPORTED` and calls nothing. -/
theorem unresolved_passthrough_witness :
    forwarding.Dd7to9 = false ∧
    dd_DirectDrawCreate winsdk forwarding none none [] none 0 0
      = ⟨DDERR_UNSUPPORTED, .nothing, none, []⟩ :=
  ⟨rfl, (unresolved_passthrough forwarding rfl winsdk d3dhal (envOf (factoryOf [])) []).2.2.2.2.2.2.2.2.2.2.1
    none none 0 0⟩

/-! ### Compatibility flags -/

/-- The flags of the calls a filtering loop makes are the flags it accepts, in
the order of the loop. -/
theorem filterMap_flags (enabled : Nat → Bool) (value : Nat → Nat) (xs : List Nat) :
    (xs.filterMap fun x =>
      if enabled x then (some (x, value x) : Option (Nat × Nat)) else none).map Prod.fst
      = xs.filter enabled := by
  induction xs with
  | nil => rfl
  | cons x rest ih =>
    cases h : enabled x <;> simp [List.filterMap_cons, List.filter_cons, h, ih]

/-- The calls of `SetAllAppCompatData` through a resolved pointer, with the
two `SetAppCompatData` branches written as one value. -/
theorem SetAllAppCompatData_resolved (S : DDrawSdk) (Config : CONFIG)
    (original : Nat → Nat → HRESULT) :
    SetAllAppCompatData S Config (some original) =
      (List.range' 1 12).filterMap fun x =>
        if Config.DXPrimaryEmulation x then
          (some (x, if x = S.LockColorkey then Config.LockColorkey else 0) : Option (Nat × Nat))
        else none := by
  unfold SetAllAppCompatData
  simp only []
  congr 1
  funext x
  cases Config.DXPrimaryEmulation x <;> simp
  split <;> rfl

/-- C11: through a resolved `SetAppCompatData`, `SetAllAppCompatData` makes a
call `(x, v)` exactly for the flags `x` in `1..12` whose toggle is set, with
`v` the configured color key when `x` is the `LockColorkey` flag and `0`
otherwise; the flags of the calls are strictly ascending, so each enabled flag
is called exactly once and every other flag never; with the symbol unresolved
it makes no call. -/
theorem SetAllAppCompatData_calls (S : DDrawSdk) (Config : CONFIG)
    (original : Nat → Nat → HRESULT) :
    SetAllAppCompatData S Config none = [] ∧
    (∀ x v, (x, v) ∈ SetAllAppCompatData S Config (some original) ↔
      (1 ≤ x ∧ x ≤ 12 ∧ Config.DXPrimaryEmulation x = true ∧
        v = if x = S.LockColorkey then Config.LockColorkey else 0)) ∧
    ((SetAllAppCompatData S Config (some original)).map Prod.fst).Pairwise (· < ·) ∧
    (∀ x, ((SetAllAppCompatData S Config (some original)).map Prod.fst).count x =
      if 1 ≤ x ∧ x ≤ 12 ∧ Config.DXPrimaryEmulation x = true then 1 else 0) := by
  have hflags : (SetAllAppCompatData S Config (some original)).map Prod.fst
      = (List.range' 1 12).filter Config.DXPrimaryEmulation := by
    rw [SetAllAppCompatData_resolved]
    exact filterMap_flags _ _ _
  have hsorted : ((List.range' 1 12).filter Config.DXPrimaryEmulation).Pairwise (· < ·) :=
    (List.pairwise_lt_range' 1 12).sublist (List.filter_sublist _)
  refine ⟨rfl, ?_, ?_, ?_⟩
  · intro x v
    rw [SetAllAppCompatData_resolved, List.mem_filterMap]
    constructor
    · rintro ⟨y, hy, hval⟩
      rw [List.mem_range'_1] at hy
      cases hen : Config.DXPrimaryEmulation y
      · simp [hen] at hval
      · simp only [hen, if_true, Option.some.injEq, Prod.mk.injEq] at hval
        obtain ⟨rfl, rfl⟩ := hval
        exact ⟨hy.1, by omega, hen, rfl⟩
    · rintro ⟨h1, h12, hen, rfl⟩
      exact ⟨x, by rw [List.mem_range'_1]; omega, by simp [hen]⟩
  · rw [hflags]
    exact hsorted
  · intro x
    rw [hflags]
    have hnodup : ((List.range' 1 12).filter Config.DXPrimaryEmulation).Nodup :=
      hsorted.imp (fun h => Nat.ne_of_lt h)
    by_cases hx : 1 ≤ x ∧ x ≤ 12 ∧ Config.DXPrimaryEmulation x = true
    · rw [if_pos hx]
      apply List.count_eq_one_of_mem hnodup
      rw [List.mem_filter, List.mem_range'_1]
      exact ⟨by omega, hx.2.2⟩
    · rw [if_neg hx]
      apply List.count_eq_zero_of_not_mem
      rw [List.mem_filter, List.mem_range'_1]
      rintro ⟨hr, hen⟩
      exact hx ⟨hr.1, by omega, hen⟩

/-! ### Device cache -/

/-- `operator==` is equality of the identifiers. -/
theorem DDDeviceInfo_eq_iff (a other : DDDeviceInfo) :
    a.eq other = true ↔ a.guid = other.guid := by
  simp [DDDeviceInfo.eq, IsEqualGUID]

/-- A record whose identifier is in no record of the cache is appended. -/
theorem StoreDeviceCache_absent (info : DDDeviceInfo) (cache : List DDDeviceInfo)
    (h : ∀ d ∈ cache, d.guid ≠ info.guid) : StoreDeviceCache info cache = cache ++ [info] := by
  induction cache with
  | nil => rfl
  | cons d rest ih =>
    have hd : ¬ d.eq info = true := by
      rw [DDDeviceInfo_eq_iff]; exact h d (List.mem_cons_self _ _)
    simp only [StoreDeviceCache, hd, if_false, Bool.false_eq_true]
    rw [ih (fun x hx => h x (List.mem_cons_of_mem _ hx))]
    rfl

/-- A record whose identifier is in the cache updates the first record with
that identifier and leaves every other record as it was. -/
theorem StoreDeviceCache_present (info : DDDeviceInfo) (cache : List DDDeviceInfo)
    (h : ∃ d ∈ cache, d.guid = info.guid) :
    ∃ before it after, cache = before ++ it :: after ∧
      (∀ d ∈ before, d.guid ≠ info.guid) ∧ it.guid = info.guid ∧
      StoreDeviceCache info cache =
        before ++ ⟨it.guid, info.name, info.description, info.AdapterIndex⟩ :: after := by
  induction cache with
  | nil =>
    obtain ⟨d, hd, _⟩ := h
    cases hd
  | cons c rest ih =>
    by_cases hc : c.guid = info.guid
    · refine ⟨[], c, rest, rfl, by simp, hc, ?_⟩
      have : c.eq info = true := (DDDeviceInfo_eq_iff _ _).mpr hc
      simp [StoreDeviceCache, this]
    · have hrest : ∃ d ∈ rest, d.guid = info.guid := by
        obtain ⟨d, hd, hg⟩ := h
        rcases List.mem_cons.mp hd with rfl | hd
        · exact absurd hg hc
        · exact ⟨d, hd, hg⟩
      obtain ⟨before, it, after, hsplit, hbefore, hit, hstore⟩ := ih hrest
      refine ⟨c :: before, it, after, by rw [hsplit]; rfl, ?_, hit, ?_⟩
      · intro d hd
        rcases List.mem_cons.mp hd with rfl | hd
        · exact hc
        · exact hbefore d hd
      · have : ¬ c.eq info = true := by rw [DDDeviceInfo_eq_iff]; exact hc
        simp only [StoreDeviceCache, this, if_false, Bool.false_eq_true]
        rw [hstore]
        rfl

/-- The identifiers after `StoreDeviceCache`: the old ones in their order,
followed by the new one when it was absent. -/
theorem StoreDeviceCache_guids (info : DDDeviceInfo) (cache : List DDDeviceInfo) :
    ((∃ d ∈ cache, d.guid = info.guid) ∧
      (StoreDeviceCache info cache).map (fun d => d.guid) = cache.map (fun d => d.guid)) ∨
    ((∀ d ∈ cache, d.guid ≠ info.guid) ∧
      (StoreDeviceCache info cache).map (fun d => d.guid)
        = cache.map (fun d => d.guid) ++ [info.guid]) := by
  by_cases h : ∃ d ∈ cache, d.guid = info.guid
  · left
    obtain ⟨before, it, after, hsplit, _, _, hstore⟩ := StoreDeviceCache_present info cache h
    refine ⟨h, ?_⟩
    rw [hstore, hsplit]
    simp
  · right
    have h2 : ∀ d ∈ cache, d.guid ≠ info.guid := fun d hd hg => h ⟨d, hd, hg⟩
    refine ⟨h2, ?_⟩
    rw [StoreDeviceCache_absent info cache h2]
    simp

/-- `StoreDeviceCache` keeps the identifiers pairwise distinct. -/
theorem StoreDeviceCache_nodup (info : DDDeviceInfo) (cache : List DDDeviceInfo)
    (h : (cache.map fun d => d.guid).Nodup) :
    ((StoreDeviceCache info cache).map fun d => d.guid).Nodup := by
  rcases StoreDeviceCache_guids info cache with ⟨_, he⟩ | ⟨hab, he⟩
  · rw [he]; exact h
  · rw [he]
    refine List.Nodup.append h (List.nodup_singleton _) ?_
    intro g hg hg2
    rw [List.mem_singleton] at hg2
    obtain ⟨d, hd, hdg⟩ := List.mem_map.mp hg
    exact hab d hd (hdg.trans hg2)

/-- Any sequence of `StoreDeviceCache` calls keeps the identifiers pairwise
distinct. -/
theorem replayStores_nodup (stores cache : List DDDeviceInfo)
    (h : (cache.map fun d => d.guid).Nodup) :
    ((replayStores stores cache).map fun d => d.guid).Nodup := by
  induction stores generalizing cache with
  | nil => exact h
  | cons info rest ih => exact ih _ (StoreDeviceCache_nodup info cache h)

/-- Any sequence of enumeration passes keeps the identifiers of the cache
pairwise distinct. -/
theorem runPasses_nodup (S : DDrawSdk) (passes : List EnumPass) (cache : List DDDeviceInfo)
    (h : (cache.map fun d => d.guid).Nodup) :
    ((runPasses S passes cache).map fun d => d.guid).Nodup := by
  induction passes generalizing cache with
  | nil => exact h
  | cons p rest ih =>
    apply ih
    rw [(DirectDrawEnumerateHandler_spec S p.env cache p.lpCallback p.lpContext p.dwFlags
      p.DDETType).1]
    exact replayStores_nodup _ _ h

/-- The lookup after a store finds the stored adapter index. -/
theorem GetAdapterIndex_StoreDeviceCache (S : DDrawSdk) (info : DDDeviceInfo)
    (cache : List DDDeviceInfo) :
    GetAdapterIndex S (StoreDeviceCache info cache) (some info.guid) = info.AdapterIndex := by
  unfold GetAdapterIndex
  simp only []
  induction cache with
  | nil => simp [StoreDeviceCache, DDDeviceInfo.eq, IsEqualGUID]
  | cons c rest ih =>
    by_cases hc : c.guid = info.guid
    · simp [StoreDeviceCache, DDDeviceInfo.eq, IsEqualGUID, hc]
    · simpa [StoreDeviceCache, DDDeviceInfo.eq, IsEqualGUID, hc] using ih

/-- The lookup of an identifier that no record has gives the default adapter. -/
theorem GetAdapterIndex_absent (S : DDrawSdk) (cache : List DDDeviceInfo) (g : GUID)
    (h : ∀ d ∈ cache, d.guid ≠ g) : GetAdapterIndex S cache (some g) = S.D3DADAPTER_DEFAULT := by
  unfold GetAdapterIndex
  simp only []
  have : cache.find? (fun device => device.eq ⟨g, "", "", 0⟩) = none := by
    rw [List.find?_eq_none]
    intro d hd
    simpa [DDDeviceInfo.eq, IsEqualGUID] using h d hd
  rw [this]

/-- C12: a lookup after a store returns the stored adapter index, for every
cache and record, and `GetAdapterIndex` returns `D3DADAPTER_DEFAULT` for a null
identifier and for an identifier no record has.  The consequence drawn for a
whole enumeration pass fails where the handler hands out one identifier twice:
with three adapters sharing a native identifier and an empty cache, the
identifier given to the callback for adapter `1` is given again for adapter
`2`, the second store overwrites the record, and after the pass the lookup of
that identifier returns `2`. -/
theorem GetAdapterIndex_round_trip (S : DDrawSdk) :
    (∀ cache info,
      GetAdapterIndex S (StoreDeviceCache info cache) (some info.guid) = info.AdapterIndex) ∧
    (∀ cache, GetAdapterIndex S cache none = S.D3DADAPTER_DEFAULT) ∧
    (∀ cache g, (∀ d ∈ cache, d.guid ≠ g) →
      GetAdapterIndex S cache (some g) = S.D3DADAPTER_DEFAULT) ∧
    (List.filter (fun e => decide (e.adapter = 1))
      (DirectDrawEnumerateHandler winsdk (envOf (factoryOf threeMonitors)) []
        (some alwaysOk) 0 1 DDET_ENUMCALLBACKA).events =
      [.identify 1 true, .store 1 ⟨cardGUID.incData1, "DISPLAY2", "card", 1⟩,
       .callback 1 (.A (some cardGUID.incData1) "card" "DISPLAY2" 0)] ∧
     GetAdapterIndex winsdk
      (DirectDrawEnumerateHandler winsdk (envOf (factoryOf threeMonitors)) []
        (some alwaysOk) 0 1 DDET_ENUMCALLBACKA).g_DeviceCache
      (some cardGUID.incData1) = 2) := by
  refine ⟨fun cache info => GetAdapterIndex_StoreDeviceCache S info cache, fun _ => rfl,
    fun cache g h => GetAdapterIndex_absent S cache g h, ?_⟩
  decide

/-- C13: on a cache with pairwise distinct identifiers, `StoreDeviceCache`
leaves the identifiers pairwise distinct; a record whose identifier is absent
is appended at the end and nothing else changes; a record whose identifier is
present keeps the length and the identifiers in their order and changes only
the name, description and adapter index of the one record with that
identifier.  Hence the cache after any sequence of enumeration passes from the
empty cache has pairwise distinct identifiers. -/
theorem StoreDeviceCache_append_only (S : DDrawSdk) (cache : List DDDeviceInfo)
    (info : DDDeviceInfo) (hdistinct : (cache.map fun d => d.guid).Nodup) :
    ((StoreDeviceCache info cache).map fun d => d.guid).Nodup ∧
    ((∀ d ∈ cache, d.guid ≠ info.guid) → StoreDeviceCache info cache = cache ++ [info]) ∧
    ((∃ d ∈ cache, d.guid = info.guid) →
      (StoreDeviceCache info cache).length = cache.length ∧
      (StoreDeviceCache info cache).map (fun d => d.guid) = cache.map (fun d => d.guid) ∧
      ∃ before it after, cache = before ++ it :: after ∧ it.guid = info.guid ∧
        (∀ d ∈ before ++ after, d.guid ≠ info.guid) ∧
        StoreDeviceCache info cache =
          before ++ ⟨it.guid, info.name, info.description, info.AdapterIndex⟩ :: after) ∧
    (∀ passes, ((runPasses S passes []).map fun d => d.guid).Nodup) := by
  refine ⟨StoreDeviceCache_nodup info cache hdistinct, StoreDeviceCache_absent info cache,
    ?_, fun passes => runPasses_nodup S passes [] List.nodup_nil⟩
  intro hpresent
  obtain ⟨before, it, after, hsplit, hbefore, hit, hstore⟩ :=
    StoreDeviceCache_present info cache hpresent
  refine ⟨by rw [hstore, hsplit]; simp, by rw [hstore, hsplit]; simp,
    before, it, after, hsplit, hit, ?_, hstore⟩
  intro d hd
  rcases List.mem_append.mp hd with h | h
  · exact hbefore d h
  · intro hg
    rw [hsplit, List.map_append, List.map_cons] at hdistinct
    have h1 := (List.nodup_append.mp hdistinct).2.1
    have h2 := (List.nodup_cons.mp h1).1
    exact h2 (List.mem_map.mpr ⟨d, h, by rw [hg, hit]⟩)

/-- C13 at a cache of one record and a record with the same identifier: the
cached record takes the new name and adapter index, and the identifiers stay
pairwise distinct. -/
theorem StoreDeviceCache_append_only_witness :
    ([(⟨cardGUID, "DISPLAY1", "card", 0⟩ : DDDeviceInfo)].map fun d => d.guid).Nodup ∧
    ((StoreDeviceCache ⟨cardGUID, "DISPLAY2", "card", 1⟩
      [⟨cardGUID, "DISPLAY1", "card", 0⟩]).map fun d => d.guid).Nodup ∧
    StoreDeviceCache ⟨cardGUID, "DISPLAY2", "card", 1⟩ [⟨cardGUID, "DISPLAY1", "card", 0⟩]
      = [⟨cardGUID, "DISPLAY2", "card", 1⟩] :=
  ⟨by decide,
   (StoreDeviceCache_append_only winsdk [⟨cardGUID, "DISPLAY1", "card", 0⟩]
     ⟨cardGUID, "DISPLAY2", "card", 1⟩ (by decide)).1,
   by decide⟩

end DdrawWrapper
